import Mathlib

set_option linter.unusedVariables false
set_option linter.unusedTactic false
set_option linter.unreachableTactic false

/-!
Verification development for the core Raft consensus state machine of the
dragonboat repository (file internal/raft/raft.go).

The Go file raft.go is embedded shallowly below: every Go method on the
raft struct becomes a pure Lean function from state to state.  Go maps
(remotes, observers, votes) become association lists, the staged output
(msgs, readyToRead) stays a list field, and the single random draw taken
per election-timeout reset is threaded through an explicit entropy list
kept in the state (rands).  Go panics mark internal invariant violations
that terminate the process; every such branch is embedded as an identity
step, marked by a comment, and excluded by hypotheses in theorems whose
truth could depend on it.

The supporting modules of the repository (entryLog in logentry.go, remote
in remote.go, readIndex in readindex.go, the raftpb message schema) are
not part of the sources provided, so their operations are modelled from
the specification; each such definition carries a doc comment starting
with: Modelled from the spec.
-/

namespace DragonboatRaft

/-- Role of a raft node (raft.go State). -/
inductive State where
  | follower
  | candidate
  | leader
  | observer
deriving DecidableEq, Repr

/-- Modelled from the spec: entry types of the raftpb message schema
(section 6, Entry types: Application, ConfigChange). -/
inductive EntryType where
  | ApplicationEntry
  | ConfigChangeEntry
deriving DecidableEq, Repr

/-- Modelled from the spec: message types of the raftpb schema (section 6). -/
inductive MessageType where
  | Election
  | Propose
  | Replicate
  | ReplicateResp
  | Heartbeat
  | HeartbeatResp
  | RequestVote
  | RequestVoteResp
  | InstallSnapshot
  | SnapshotStatus
  | Unreachable
  | CheckQuorum
  | LeaderHeartbeat
  | LeaderTransfer
  | TimeoutNow
  | ReadIndex
  | ReadIndexResp
  | NoOP
deriving DecidableEq, Repr

/-- Modelled from the spec: a log entry {index, term, type, payload}
(section 3, Log).  The payload is abstracted to a number. -/
structure LogEntry where
  index : Nat := 0
  term : Nat := 0
  type : EntryType := .ApplicationEntry
  cmd : Nat := 0
deriving DecidableEq, Repr

/-- Modelled from the spec: a snapshot with its index, term and the
membership (voter addresses and observers) taken from raftpb.Snapshot as
used by raft.go (restore reads Index, Term, Membership). -/
structure Snapshot where
  index : Nat := 0
  term : Nat := 0
  membershipAddresses : List Nat := []
  membershipObservers : List Nat := []
deriving DecidableEq, Repr

/-- Modelled from the spec: the opaque client context attached to
read-index requests (raftpb.SystemCtx with Low and High words). -/
structure SystemCtx where
  low : Nat := 0
  high : Nat := 0
deriving DecidableEq, Repr

/-- Modelled from the spec: a ready-to-read record (raftpb.ReadyToRead). -/
structure ReadyToRead where
  index : Nat := 0
  systemCtx : SystemCtx := {}
deriving DecidableEq, Repr

/-- Modelled from the spec: the wire message schema (section 6):
{type, from, to, term, logIndex, logTerm, entries, commit, reject, hint,
hintHigh, snapshot}.  The Go field From is named mfrom because from is a
reserved word in Lean, and To is named mto. -/
structure Message where
  type : MessageType := .NoOP
  mfrom : Nat := 0
  mto : Nat := 0
  term : Nat := 0
  logIndex : Nat := 0
  logTerm : Nat := 0
  entries : List LogEntry := []
  commit : Nat := 0
  reject : Bool := false
  hint : Nat := 0
  hintHigh : Nat := 0
  snapshot : Snapshot := {}
deriving DecidableEq, Repr

/-- Modelled from the spec: persisted state {term, vote, commit}
(raftpb.State, section 6 Log DB NodeState). -/
structure PBState where
  term : Nat := 0
  vote : Nat := 0
  commit : Nat := 0
deriving DecidableEq, Repr

/-- Modelled from the spec: the per-peer flow states of remote.go
(section 3 Peer record; raft.go references the retry, wait, replicate and
snapshot states). -/
inductive RemoteFlowState where
  | retry
  | wait
  | replicate
  | snapshot
deriving DecidableEq, Repr

/-- Modelled from the spec: the per-peer progress record of remote.go
(section 3 Peer record): match, next, flow state, activity flag and the
in-flight snapshot index.  The Go field match is named rmatch because
match is a reserved word in Lean. -/
structure Remote where
  rmatch : Nat := 0
  next : Nat := 0
  state : RemoteFlowState := .retry
  active : Bool := false
  snapshotIndex : Nat := 0
deriving DecidableEq, Repr

instance : Inhabited Remote := ⟨{}⟩

namespace Remote

/-- Modelled from the spec: whether the peer responded since the last
check-quorum window (section 3). -/
def isActive (rp : Remote) : Bool := rp.active

/-- Modelled from the spec: mark the peer active. -/
def setActive (rp : Remote) : Remote := { rp with active := true }

/-- Modelled from the spec: clear the activity flag (done inside the
check-quorum scan). -/
def setNotActive (rp : Remote) : Remote := { rp with active := false }

/-- Modelled from the spec: send throttling (section 3 flowState); a peer
in the wait or snapshot state is paused. -/
def isPaused (rp : Remote) : Bool :=
  decide (rp.state = .wait ∨ rp.state = .snapshot)

/-- Modelled from the spec: move the peer to the retry state. -/
def becomeRetry (rp : Remote) : Remote := { rp with state := .retry }

/-- Modelled from the spec: a peer in the wait state moves back to retry
when a heartbeat response arrives. -/
def waitToRetry (rp : Remote) : Remote :=
  if rp.state = .wait then { rp with state := .retry } else rp

/-- Modelled from the spec (section 4.10): move the peer to the wait
state; when a snapshot was in flight, next becomes its index + 1 and the
pending snapshot index is cleared. -/
def becomeWait (rp : Remote) : Remote :=
  { rp with
    state := .wait
    next := if 0 < rp.snapshotIndex then rp.snapshotIndex + 1 else rp.next
    snapshotIndex := 0 }

/-- Modelled from the spec (section 4.5): the peer enters the snapshot
state with the given in-flight snapshot index. -/
def becomeSnapshot (rp : Remote) (index : Nat) : Remote :=
  { rp with state := .snapshot, snapshotIndex := index }

/-- Modelled from the spec (section 4.10): forget the in-flight snapshot. -/
def clearPendingSnapshot (rp : Remote) : Remote := { rp with snapshotIndex := 0 }

/-- Modelled from the spec (section 4.5): after queuing a Replicate the
leader updates next optimistically to the last queued index + 1 and the
peer enters the replicate flow state. -/
def progress (rp : Remote) (lastIndex : Nat) : Remote :=
  { rp with state := .replicate, next := lastIndex + 1 }

/-- Modelled from the spec (section 4.5 ReplicateResp success): raise
match to the acknowledged index when it grows, keeping next above it;
returns whether match advanced. -/
def tryUpdate (rp : Remote) (index : Nat) : Bool × Remote :=
  let next := max rp.next (index + 1)
  if rp.rmatch < index then (true, { rp with rmatch := index, next := next })
  else (false, { rp with next := next })

/-- Modelled from the spec: a responding peer in the retry state resumes
the replicate flow state. -/
def respondedTo (rp : Remote) : Remote :=
  if rp.state = .retry then { rp with state := .replicate } else rp

/-- Modelled from the spec (section 4.5 ReplicateResp rejection):
decrease next using the rejected index and the peer hint
(min(rejectedIndex, hint+1), at least 1); stale rejections at or below
match are ignored.  Returns whether next moved. -/
def decreaseTo (rp : Remote) (rejected hint : Nat) : Bool × Remote :=
  if rejected ≤ rp.rmatch then (false, rp)
  else (true, { rp with next := max 1 (min rejected (hint + 1)) })

end Remote

/-- Modelled from the spec: errors surfaced by the log view: a compacted
prefix or an index past the end (section 6 Log DB: Term(i) can report
Compacted). -/
inductive LogError where
  | compacted
  | unavailable
deriving DecidableEq, Repr

/-- Modelled from the spec: the entryLog abstraction over the log DB
(section 2 Log view, section 4.3).  Entries with indices up to
markerIndex have been compacted into the snapshot snap; the list holds
the live entries at indices markerIndex+1, markerIndex+2, ... -/
structure EntryLog where
  markerIndex : Nat := 0
  markerTerm : Nat := 0
  snap : Snapshot := {}
  entries : List LogEntry := []
  committed : Nat := 0
deriving DecidableEq, Repr

namespace EntryLog

/-- Modelled from the spec: first live index (section 3, firstIndex). -/
def firstIndex (l : EntryLog) : Nat := l.markerIndex + 1

/-- Modelled from the spec: last index of the log. -/
def lastIndex (l : EntryLog) : Nat := l.markerIndex + l.entries.length

/-- Modelled from the spec: Term(i), reporting Compacted below the
marker and Unavailable past the end (section 6 Log DB). -/
def term (l : EntryLog) (i : Nat) : Except LogError Nat :=
  if i = l.markerIndex then .ok l.markerTerm
  else if i < l.markerIndex then .error .compacted
  else match l.entries.get? (i - l.markerIndex - 1) with
    | some e => .ok e.term
    | none => .error .unavailable

/-- Modelled from the spec: term of the last entry. -/
def lastTerm (l : EntryLog) : Nat :=
  match l.term l.lastIndex with
  | .ok t => t
  | .error _ => 0

/-- Modelled from the spec (section 4.3): whether the log has term t at
index i; errors count as a mismatch. -/
def matchTerm (l : EntryLog) (i t : Nat) : Bool :=
  match l.term i with
  | .ok t2 => t2 == t
  | .error _ => false

/-- Modelled from the spec (section 4.3): the candidate log is up to date
iff its last term is newer, or equal with an index at least as large. -/
def upToDate (l : EntryLog) (index t : Nat) : Bool :=
  decide (l.lastTerm < t ∨ (t = l.lastTerm ∧ l.lastIndex ≤ index))

/-- Modelled from the spec (section 4.3): commitTo(i) raises committed to
min(i, lastIndex) and never lowers it. -/
def commitTo (l : EntryLog) (i : Nat) : EntryLog :=
  { l with committed := max l.committed (min i l.lastIndex) }

/-- Modelled from the spec (section 4.3 and section 8 commit
monotonicity): advance committed to maxIndex only when it grows and the
entry there carries the given (current) term; returns whether it moved. -/
def tryCommit (l : EntryLog) (maxIndex t : Nat) : Bool × EntryLog :=
  if l.committed < maxIndex ∧ l.matchTerm maxIndex t then
    (true, { l with committed := maxIndex })
  else (false, l)

/-- Modelled from the spec (section 6 Log DB Entries): the live entries
from index lo on; Compacted when lo falls below firstIndex.  The byte
budget of the Go call (settings MaxEntrySize) is not modelled: every
request returns the full suffix, which the callers in raft.go treat the
same way. -/
def entriesFrom (l : EntryLog) (lo : Nat) : Except LogError (List LogEntry) :=
  if lo ≤ l.markerIndex then .error .compacted
  else .ok (l.entries.drop (lo - l.markerIndex - 1))

/-- Modelled from the spec: append entries at the tail (leader side,
entries already stamped with index and term). -/
def append (l : EntryLog) (ents : List LogEntry) : EntryLog :=
  { l with entries := l.entries ++ ents }

/-- Modelled from the spec (section 4.3 tryAppend): after log matching at
prevIndex, insert the entries; the suffix from the first conflicting
entry on replaces what the log held there. -/
def tryAppend (l : EntryLog) (prevIndex : Nat) (ents : List LogEntry) : EntryLog :=
  match ents.find? (fun e => ! l.matchTerm e.index e.term) with
  | none => l
  | some e =>
    { l with entries :=
        l.entries.take (e.index - l.markerIndex - 1) ++
        ents.filter (fun e2 => e.index ≤ e2.index) }

/-- Modelled from the spec (section 4.10 restore): replace the log state
with the snapshot: the marker moves to the snapshot point, live entries
are dropped and committed becomes the snapshot index. -/
def restore (l : EntryLog) (ss : Snapshot) : EntryLog :=
  { markerIndex := ss.index
    markerTerm := ss.term
    snap := ss
    entries := []
    committed := ss.index }

/-- Modelled from the spec: the latest snapshot held by the log. -/
def snapshot (l : EntryLog) : Snapshot := l.snap

end EntryLog

/-- Modelled from the spec (section 3 ReadIndex queue): one pending read
with the committed index at request time, the client context, the origin
node and the set of voters that confirmed leadership since. -/
structure ReadIndexStatus where
  index : Nat := 0
  ctx : SystemCtx := {}
  mfrom : Nat := 0
  confirmed : List Nat := []
deriving DecidableEq, Repr

/-- Modelled from the spec: the readIndex engine, an ordered queue of
pending reads (readindex.go). -/
structure ReadIndexState where
  pending : List ReadIndexStatus := []
deriving DecidableEq, Repr

namespace ReadIndexState

/-- Modelled from the spec (section 4.7): enqueue {committed, ctx, from}. -/
def addRequest (ri : ReadIndexState) (index : Nat) (ctx : SystemCtx) (nid : Nat) :
    ReadIndexState :=
  { pending := ri.pending ++ [{ index := index, ctx := ctx, mfrom := nid }] }

/-- Modelled from the spec: whether any read is pending. -/
def hasPendingRequest (ri : ReadIndexState) : Bool := ! ri.pending.isEmpty

/-- Modelled from the spec: the context of the most recently queued read,
piggybacked on heartbeats. -/
def peepCtx (ri : ReadIndexState) : SystemCtx :=
  match ri.pending.getLast? with
  | some s => s.ctx
  | none => {}

/-- Modelled from the spec (section 4.7): record a leadership
confirmation carrying ctx from a voter; once a quorum (counting the
leader itself) confirmed the read with that context, that read and every
earlier one are drained and returned. -/
def confirm (ri : ReadIndexState) (ctx : SystemCtx) (nid : Nat) (quorum : Nat) :
    List ReadIndexStatus × ReadIndexState :=
  let pending := ri.pending.map (fun s =>
    if s.ctx = ctx ∧ ¬ (nid ∈ s.confirmed) then
      { s with confirmed := s.confirmed ++ [nid] }
    else s)
  match pending.findIdx? (fun s => s.ctx == ctx) with
  | none => ([], { pending := pending })
  | some i =>
    let s := pending.getD i {}
    if quorum ≤ s.confirmed.length + 1 then
      (pending.take (i + 1), { pending := pending.drop (i + 1) })
    else ([], { pending := pending })

end ReadIndexState


/-- Configuration of a node (config.Config fields read by raft.go). -/
structure Config where
  clusterID : Nat := 0
  nodeID : Nat := 0
  electionRTT : Nat := 0
  heartbeatRTT : Nat := 0
  checkQuorum : Bool := false
  isObserver : Bool := false
deriving DecidableEq, Repr

/-- The raft struct of raft.go.  Go maps become association lists, the
test-only hooks (hasNotAppliedConfigChange, recordLeader) stay at their
nil defaults and are therefore not represented, and rands is the explicit
entropy stream consumed one value per election-timeout reset. -/
structure RaftState where
  applied : Nat := 0
  nodeID : Nat := 0
  clusterID : Nat := 0
  term : Nat := 0
  vote : Nat := 0
  log : EntryLog := {}
  remotes : List (Nat × Remote) := []
  observers : List (Nat × Remote) := []
  state : State := .follower
  votes : List (Nat × Bool) := []
  msgs : List Message := []
  leaderID : Nat := 0
  leaderTransferTarget : Nat := 0
  isLeaderTransferTarget : Bool := false
  pendingConfigChange : Bool := false
  readIndex : ReadIndexState := {}
  readyToRead : List ReadyToRead := []
  checkQuorum : Bool := false
  tickCount : Nat := 0
  electionTick : Nat := 0
  heartbeatTick : Nat := 0
  heartbeatTimeout : Nat := 0
  electionTimeout : Nat := 0
  randomizedElectionTimeout : Nat := 0
  matched : List Nat := []
  rands : List Nat := []
deriving DecidableEq, Repr

/-- Association-list lookup used for the Go maps remotes, observers and
votes. -/
def assocFind (l : List (Nat × α)) (id : Nat) : Option α :=
  (l.find? (fun p => p.1 == id)).map (fun p => p.2)

/-- Association-list in-place update of the value stored under a key. -/
def assocUpdate (l : List (Nat × α)) (id : Nat) (f : α → α) : List (Nat × α) :=
  l.map (fun p => if p.1 == id then (p.1, f p.2) else p)

/-- Pointer-style access of raft.go: a remote found in remotes, else in
observers (the lw wrapper and sendReplicateMessage). -/
def getRemote (r : RaftState) (id : Nat) : Option Remote :=
  match assocFind r.remotes id with
  | some rp => some rp
  | none => assocFind r.observers id

/-- Write back a mutation of the remote record stored under id, in
remotes when present there and otherwise in observers, matching the Go
code where the handlers mutate through the pointer obtained by lookup. -/
def modifyRemote (r : RaftState) (id : Nat) (f : Remote → Remote) : RaftState :=
  if (assocFind r.remotes id).isSome then
    { r with remotes := assocUpdate r.remotes id f }
  else { r with observers := assocUpdate r.observers id f }

/-- raft.go isObserver. -/
def isObserver (r : RaftState) : Bool := decide (r.state = .observer)

/-- raft.go setLeaderID (the recordLeader hook is nil here). -/
def setLeaderID (r : RaftState) (leaderID : Nat) : RaftState :=
  { r with leaderID := leaderID }

/-- raft.go leaderTransfering. -/
def leaderTransfering (r : RaftState) : Bool :=
  decide (r.leaderTransferTarget ≠ 0 ∧ r.state = .leader)

/-- raft.go abortLeaderTransfer. -/
def abortLeaderTransfer (r : RaftState) : RaftState :=
  { r with leaderTransferTarget := 0 }

/-- raft.go quorum: floor(voters/2) + 1. -/
def quorum (r : RaftState) : Nat := r.remotes.length / 2 + 1

/-- raft.go isSingleNodeQuorum. -/
def isSingleNodeQuorum (r : RaftState) : Bool := decide (quorum r = 1)

/-- raft.go leaderHasQuorum: count the local node plus every active
remote, clearing each counted activity flag, and compare with quorum. -/
def leaderHasQuorum (r : RaftState) : Bool × RaftState :=
  let step := fun (acc : Nat × List (Nat × Remote)) (p : Nat × Remote) =>
    if p.1 = r.nodeID ∨ p.2.isActive then
      (acc.1 + 1, acc.2 ++ [(p.1, p.2.setNotActive)])
    else (acc.1, acc.2 ++ [p])
  let res := r.remotes.foldl step (0, [])
  (decide (quorum r ≤ res.1), { r with remotes := res.2 })

/-- raft.go selfRemoved: an observer checks the observer set, every other
role checks the voter set. -/
def selfRemoved (r : RaftState) : Bool :=
  if r.state = .observer then (assocFind r.observers r.nodeID).isNone
  else (assocFind r.remotes r.nodeID).isNone

/-- raft.go resetMatchValueArray. -/
def resetMatchValueArray (r : RaftState) : RaftState :=
  { r with matched := List.replicate r.remotes.length 0 }

/-- raft.go loadState.  The out-of-range commit check panics in Go; the
violating case is embedded as the identity. -/
def loadState (r : RaftState) (st : PBState) : RaftState :=
  if st.commit < r.log.committed ∨ r.log.lastIndex < st.commit then r
  else
    { r with
      log := { r.log with committed := st.commit }
      term := st.term
      vote := st.vote }

/-- raft.go restore: ignore a snapshot at or below committed; Go panics
when a non-observer would be converted to an observer (embedded as the
identity); a snapshot matching an existing entry only moves committed;
otherwise the log is replaced from the snapshot.  Returns whether the
snapshot was installed. -/
def restore (r : RaftState) (ss : Snapshot) : Bool × RaftState :=
  if ss.index ≤ r.log.committed then (false, r)
  else if ¬ isObserver r ∧ r.nodeID ∈ ss.membershipObservers then
    (false, r)
  else if r.log.matchTerm ss.index ss.term then
    (false, { r with log := r.log.commitTo ss.index })
  else (true, { r with log := r.log.restore ss })

/-- raft.go timeForElection. -/
def timeForElection (r : RaftState) : Bool :=
  decide (r.randomizedElectionTimeout ≤ r.electionTick)

/-- raft.go timeForHearbeat. -/
def timeForHearbeat (r : RaftState) : Bool :=
  decide (r.heartbeatTimeout ≤ r.heartbeatTick)

/-- raft.go timeForCheckQuorum. -/
def timeForCheckQuorum (r : RaftState) : Bool :=
  decide (r.electionTimeout ≤ r.electionTick)

/-- raft.go timeToAbortLeaderTransfer. -/
def timeToAbortLeaderTransfer (r : RaftState) : Bool :=
  leaderTransfering r && decide (r.electionTimeout ≤ r.electionTick)

/-- raft.go setRandomizedElectionTimeout: electionTimeout plus one fresh
random draw taken modulo electionTimeout; the draw comes from the
explicit entropy list. -/
def setRandomizedElectionTimeout (r : RaftState) : RaftState :=
  { r with
    randomizedElectionTimeout := r.electionTimeout + r.rands.headD 0 % r.electionTimeout
    rands := r.rands.tail }

/-- raft.go isRequestMessage. -/
def isRequestMessage : MessageType → Bool
  | .Propose => true
  | .ReadIndex => true
  | _ => false

/-- raft.go isLeaderMessage. -/
def isLeaderMessage : MessageType → Bool
  | .Replicate => true
  | .InstallSnapshot => true
  | .Heartbeat => true
  | .TimeoutNow => true
  | .ReadIndexResp => true
  | _ => false

/-- raft.go finalizeMessageTerm: every non-request message is stamped
with the current term (the two consistency panics of the Go code are
guarded by construction and not represented). -/
def finalizeMessageTerm (r : RaftState) (m : Message) : Message :=
  if ! isRequestMessage m.type then { m with term := r.term } else m

/-- raft.go send: stamp the sender and the term and stage the message. -/
def send (r : RaftState) (m : Message) : RaftState :=
  { r with msgs := r.msgs ++ [finalizeMessageTerm r { m with mfrom := r.nodeID }] }

/-- raft.go sendTimeoutNowMessage. -/
def sendTimeoutNowMessage (r : RaftState) (target : Nat) : RaftState :=
  send r { type := .TimeoutNow, mto := target }

/-- raft.go makeReplicateMessage: previous term and entries from the log;
a compaction error propagates to the caller. -/
def makeReplicateMessage (r : RaftState) (mto next : Nat) :
    Except LogError Message :=
  match r.log.term (next - 1) with
  | .error e => .error e
  | .ok t =>
    match r.log.entriesFrom next with
    | .error e => .error e
    | .ok entries =>
      .ok { mto := mto, type := .Replicate, logIndex := next - 1, logTerm := t,
            entries := entries, commit := r.log.committed }

/-- raft.go sendReplicateMessage: build a Replicate for the peer; on a
compaction error fall back to InstallSnapshot when the peer is active and
a snapshot exists.  The missing-remote and empty-snapshot panics of the
Go code are embedded as the identity. -/
def sendReplicateMessage (r : RaftState) (mto : Nat) : RaftState :=
  match getRemote r mto with
  | none => r
  | some rp =>
    if rp.isPaused then r
    else
      match makeReplicateMessage r mto rp.next with
      | .ok m =>
        let r :=
          match m.entries.getLast? with
          | some last => modifyRemote r mto (fun rp => rp.progress last.index)
          | none => r
        send r m
      | .error _ =>
        if ! rp.isActive then r
        else
          let snapshot := r.log.snapshot
          if snapshot.index = 0 then r
          else
            let r := modifyRemote r mto (fun rp => rp.becomeSnapshot snapshot.index)
            send r { mto := mto, type := .InstallSnapshot, snapshot := snapshot }

/-- raft.go broadcastReplicateMessage: a Replicate for every voter except
the local node and every observer (Go iterates the map keys; the lookups
happen per peer inside sendReplicateMessage). -/
def broadcastReplicateMessage (r : RaftState) : RaftState :=
  let r := (r.remotes.map (fun p => p.1)).foldl
    (fun acc nid => if nid ≠ acc.nodeID then sendReplicateMessage acc nid else acc) r
  (r.observers.map (fun p => p.1)).foldl
    (fun acc nid => sendReplicateMessage acc nid) r

/-- raft.go sendHeartbeatMessage: commit is capped at the match of the
peer so a follower never learns a commit index it has not replicated. -/
def sendHeartbeatMessage (r : RaftState) (mto : Nat) (hint : SystemCtx)
    (toObserver : Bool) : RaftState :=
  let rmatch :=
    if toObserver then ((assocFind r.observers mto).getD default).rmatch
    else ((assocFind r.remotes mto).getD default).rmatch
  send r { mto := mto, type := .Heartbeat, commit := min rmatch r.log.committed,
           hint := hint.low, hintHigh := hint.high }

/-- raft.go broadcastHeartbeatMessageWithHint: heartbeats to every voter
except the local node, and to every observer exactly when the context is
zero. -/
def broadcastHeartbeatMessageWithHint (r : RaftState) (ctx : SystemCtx) : RaftState :=
  let zeroCtx : SystemCtx := {}
  let r := (r.remotes.map (fun p => p.1)).foldl
    (fun acc id => if id ≠ acc.nodeID then sendHeartbeatMessage acc id ctx false else acc) r
  if ctx = zeroCtx then
    (r.observers.map (fun p => p.1)).foldl
      (fun acc id => sendHeartbeatMessage acc id zeroCtx true) r
  else r

/-- raft.go broadcastHeartbeatMessage: piggyback the most recent pending
read-index context when one exists. -/
def broadcastHeartbeatMessage (r : RaftState) : RaftState :=
  if r.readIndex.hasPendingRequest then
    broadcastHeartbeatMessageWithHint r r.readIndex.peepCtx
  else broadcastHeartbeatMessageWithHint r {}

/-- raft.go sortMatchValues: the unrolled three-element bubble sort
(three conditional swaps, written out value by value), and a comparison
sort (sort.Slice in Go, insertion sort here) otherwise. -/
def sortMatchValues (l : List Nat) : List Nat :=
  match l with
  | [a0, b0, c0] =>
    let a1 := if b0 < a0 then b0 else a0
    let b1 := if b0 < a0 then a0 else b0
    let b2 := if c0 < b1 then c0 else b1
    let c2 := if c0 < b1 then b1 else c0
    let a3 := if b2 < a1 then b2 else a1
    let b3 := if b2 < a1 then a1 else b2
    [a3, b3, c2]
  | _ => l.insertionSort (fun x y => x ≤ y)

/-- raft.go tryCommit: gather the match value of every voter, sort, pick
the (n − quorum)-th element and ask the log to commit it under the
current term.  (The Go code reuses the pre-sized matched buffer; it holds
the sorted values afterwards.) -/
def tryCommit (r : RaftState) : Bool × RaftState :=
  let matched := sortMatchValues (r.remotes.map (fun p => p.2.rmatch))
  let q := matched.getD (r.remotes.length - quorum r) 0
  let res := r.log.tryCommit q r.term
  (res.1, { r with matched := matched, log := res.2 })

/-- raft.go appendEntries: stamp term and consecutive indices, append,
update the match of the local node and auto-commit under a single-node
quorum.  (Go panics when the local node is no voter; identity here.) -/
def appendEntries (r : RaftState) (entries : List LogEntry) : RaftState :=
  let lastIndex := r.log.lastIndex
  let entries := entries.enum.map
    (fun p => { p.2 with term := r.term, index := lastIndex + 1 + p.1 })
  let r := { r with log := r.log.append entries }
  let r := modifyRemote r r.nodeID (fun rp => (rp.tryUpdate r.log.lastIndex).2)
  if isSingleNodeQuorum r then (tryCommit r).2 else r

/-- raft.go setPendingConfigChange. -/
def setPendingConfigChange (r : RaftState) : RaftState :=
  { r with pendingConfigChange := true }

/-- raft.go hasPendingConfigChange. -/
def hasPendingConfigChange (r : RaftState) : Bool := r.pendingConfigChange

/-- raft.go clearPendingConfigChange. -/
def clearPendingConfigChange (r : RaftState) : RaftState :=
  { r with pendingConfigChange := false }

/-- raft.go getPendingConfigChangeCount: the number of config-change
entries above committed.  (Go pages through entries batch by batch until
an empty batch; the batches exactly cover the indices above committed, so
the count is over that suffix.) -/
def getPendingConfigChangeCount (r : RaftState) : Nat :=
  match r.log.entriesFrom (r.log.committed + 1) with
  | .ok ents => ents.countP (fun e => e.type == .ConfigChangeEntry)
  | .error _ => 0

/-- raft.go resetRemotes: every voter restarts at next = lastIndex + 1
with match 0, except the local node whose match is lastIndex. -/
def resetRemotes (r : RaftState) : RaftState :=
  { r with remotes := r.remotes.map (fun p =>
      if p.1 = r.nodeID then
        (p.1, { next := r.log.lastIndex + 1, rmatch := r.log.lastIndex })
      else (p.1, { next := r.log.lastIndex + 1 })) }

/-- raft.go resetObservers. -/
def resetObservers (r : RaftState) : RaftState :=
  { r with observers := r.observers.map (fun p =>
      if p.1 = r.nodeID then
        (p.1, { next := r.log.lastIndex + 1, rmatch := r.log.lastIndex })
      else (p.1, { next := r.log.lastIndex + 1 })) }

/-- raft.go reset: raise the term (clearing the vote when it changes),
forget the leader, the vote tally, the read queue, the pending
config-change flag and the transfer target, restart both ticks, pick a
fresh randomized election timeout and rebuild the peer records. -/
def reset (r : RaftState) (term : Nat) : RaftState :=
  let r := if r.term ≠ term then { r with term := term, vote := 0 } else r
  let r := setLeaderID r 0
  let r := { r with votes := [], electionTick := 0, heartbeatTick := 0 }
  let r := setRandomizedElectionTimeout r
  let r := { r with readIndex := {} }
  let r := clearPendingConfigChange r
  let r := abortLeaderTransfer r
  let r := resetRemotes r
  let r := resetObservers r
  resetMatchValueArray r

/-- raft.go preLeaderPromotionHandleConfigChange: Go panics on more than
one uncommitted config change (identity here); exactly one sets the
pending flag. -/
def preLeaderPromotionHandleConfigChange (r : RaftState) : RaftState :=
  let n := getPendingConfigChangeCount r
  if 1 < n then r
  else if n = 1 then setPendingConfigChange r
  else r

/-- raft.go becomeObserver.  Go panics when the node is not an observer
(identity here). -/
def becomeObserver (r : RaftState) (term leaderID : Nat) : RaftState :=
  if r.state ≠ .observer then r
  else
    let r := reset r term
    setLeaderID r leaderID

/-- raft.go becomeFollower. -/
def becomeFollower (r : RaftState) (term leaderID : Nat) : RaftState :=
  let r := { r with state := .follower }
  let r := reset r term
  setLeaderID r leaderID

/-- raft.go becomeCandidate: advance the term by one and self-vote.  Go
panics when called on a leader or an observer (identity here). -/
def becomeCandidate (r : RaftState) : RaftState :=
  if r.state = .leader ∨ r.state = .observer then r
  else
    let r := { r with state := .candidate }
    let r := reset r (r.term + 1)
    { r with vote := r.nodeID }

/-- raft.go becomeLeader: keep the term, take the leadership, carry over
a pending config change found in the log and append the no-op entry.  Go
panics when called on a follower or an observer (identity here). -/
def becomeLeader (r : RaftState) : RaftState :=
  if r.state = .follower ∨ r.state = .observer then r
  else
    let r := { r with state := .leader }
    let r := reset r r.term
    let r := setLeaderID r r.nodeID
    let r := preLeaderPromotionHandleConfigChange r
    appendEntries r [{ type := .ApplicationEntry }]

/-- raft.go handleVoteResp: record the first response of each voter and
return how many granted. -/
def handleVoteResp (r : RaftState) (nid : Nat) (rejected : Bool) :
    Nat × RaftState :=
  let votes :=
    if (assocFind r.votes nid).isSome then r.votes
    else r.votes ++ [(nid, ! rejected)]
  (votes.countP (fun p => p.2), { r with votes := votes })

/-- raft.go campaign: become candidate, self-vote, win outright under a
single-node quorum, and otherwise request votes from every other voter,
carrying the leader-transfer hint when this node was the transfer
target. -/
def campaign (r : RaftState) : RaftState :=
  let r := becomeCandidate r
  let term := r.term
  let r := (handleVoteResp r r.nodeID false).2
  if isSingleNodeQuorum r then becomeLeader r
  else
    let hint := if r.isLeaderTransferTarget then r.nodeID else 0
    let r :=
      if r.isLeaderTransferTarget then { r with isLeaderTransferTarget := false }
      else r
    (r.remotes.map (fun p => p.1)).foldl
      (fun acc k =>
        if k = acc.nodeID then acc
        else
          send acc { term := term, mto := k, type := .RequestVote,
                     logIndex := acc.log.lastIndex, logTerm := acc.log.lastTerm,
                     hint := hint })
      r

/-- raft.go newRaft.  The log DB is abstracted by the initial log view,
the persisted state and the membership read from it; config validation is
assumed (the Go code panics on an invalid config). -/
def newRaft (c : Config) (initLog : EntryLog) (st : PBState)
    (addresses observerIDs : List Nat) (rands : List Nat) : RaftState :=
  let r : RaftState :=
    { clusterID := c.clusterID
      nodeID := c.nodeID
      leaderID := 0
      log := initLog
      remotes := addresses.map (fun p => (p, { next := 1 }))
      observers := observerIDs.map (fun p => (p, { next := 1 }))
      electionTimeout := c.electionRTT
      heartbeatTimeout := c.heartbeatRTT
      checkQuorum := c.checkQuorum
      rands := rands }
  let r := resetMatchValueArray r
  let r := if ¬ (st = {}) then loadState r st else r
  if c.isObserver then
    let r := { r with state := .observer }
    becomeObserver r r.term 0
  else becomeFollower r r.term 0


/-- raft.go hasConfigChangeToApply: with the test-only hook at its nil
default this is whether any committed entry is still unapplied. -/
def hasConfigChangeToApply (r : RaftState) : Bool :=
  decide (r.applied < r.log.committed)

/-- raft.go canGrantVote. -/
def canGrantVote (r : RaftState) (m : Message) : Bool :=
  decide (r.vote = 0 ∨ r.vote = m.mfrom ∨ r.term < m.term)

/-- raft.go handleHeartbeatMessage. -/
def handleHeartbeatMessage (r : RaftState) (m : Message) : RaftState :=
  let r := { r with log := r.log.commitTo m.commit }
  send r { mto := m.mfrom, type := .HeartbeatResp, hint := m.hint,
           hintHigh := m.hintHigh }

/-- raft.go handleInstallSnapshotMessage: restore and answer with a
ReplicateResp carrying the new last index on success and the current
committed index otherwise. -/
def handleInstallSnapshotMessage (r : RaftState) (m : Message) : RaftState :=
  let res := restore r m.snapshot
  let r := res.2
  if res.1 then
    send r { mto := m.mfrom, type := .ReplicateResp, logIndex := r.log.lastIndex }
  else
    send r { mto := m.mfrom, type := .ReplicateResp, logIndex := r.log.committed }

/-- raft.go handleReplicateMessage. -/
def handleReplicateMessage (r : RaftState) (m : Message) : RaftState :=
  if m.logIndex < r.log.committed then
    send r { mto := m.mfrom, type := .ReplicateResp, logIndex := r.log.committed }
  else if r.log.matchTerm m.logIndex m.logTerm then
    let log := r.log.tryAppend m.logIndex m.entries
    let lastIdx := m.logIndex + m.entries.length
    let log := log.commitTo (min lastIdx m.commit)
    send { r with log := log }
      { mto := m.mfrom, type := .ReplicateResp, logIndex := lastIdx }
  else
    send r { mto := m.mfrom, type := .ReplicateResp, reject := true,
             logIndex := m.logIndex, hint := r.log.lastIndex }

/-- raft.go dropRequestVoteFromHighTermNode: leader stickiness; see the
last paragraph of section 6 of the raft paper. -/
def dropRequestVoteFromHighTermNode (r : RaftState) (m : Message) : Bool :=
  if m.type ≠ .RequestVote ∨ ¬ r.checkQuorum ∨ m.term ≤ r.term then false
  else if m.hint = m.mfrom then false
  else if r.leaderID ≠ 0 ∧ r.electionTick < r.electionTimeout then true
  else false

/-- raft.go onMessageTermNotMatched: term reconciliation before dispatch;
returns whether the message is to be ignored, along with the possibly
stepped-down state. -/
def onMessageTermNotMatched (r : RaftState) (m : Message) : Bool × RaftState :=
  if m.term = 0 ∨ m.term = r.term then (false, r)
  else if dropRequestVoteFromHighTermNode r m then (true, r)
  else if r.term < m.term then
    let leaderID := if isLeaderMessage m.type then m.mfrom else 0
    if isObserver r then (false, becomeObserver r m.term leaderID)
    else (false, becomeFollower r m.term leaderID)
  else
    if isLeaderMessage m.type ∧ r.checkQuorum then
      (true, send r { mto := m.mfrom, type := .NoOP })
    else (true, r)

/-- raft.go handleNodeElection: a non-leader refuses to campaign while a
committed entry is unapplied; a leader ignores the message. -/
def handleNodeElection (r : RaftState) (m : Message) : RaftState :=
  if r.state ≠ .leader then
    if hasConfigChangeToApply r then r
    else campaign r
  else r

/-- raft.go handleNodeRequestVote: grant, record the vote and restart the
election tick when allowed and the candidate log is up to date; always
answer with a RequestVoteResp. -/
def handleNodeRequestVote (r : RaftState) (m : Message) : RaftState :=
  let canGrant := canGrantVote r m
  let isUpToDate := r.log.upToDate m.logIndex m.logTerm
  if canGrant && isUpToDate then
    let r := { r with electionTick := 0, vote := m.mfrom }
    send r { mto := m.mfrom, type := .RequestVoteResp }
  else
    send r { mto := m.mfrom, type := .RequestVoteResp, reject := true }

/-- raft.go handleLeaderLeaderHeartbeat. -/
def handleLeaderLeaderHeartbeat (r : RaftState) (m : Message) : RaftState :=
  broadcastHeartbeatMessage r

/-- raft.go handleLeaderCheckQuorum: step down without a quorum of
recently active voters. -/
def handleLeaderCheckQuorum (r : RaftState) (m : Message) : RaftState :=
  let res := leaderHasQuorum r
  if ! res.1 then becomeFollower res.2 r.term 0 else res.2

/-- raft.go handleLeaderPropose: drop when the local node was removed or
a leader transfer is ongoing; downgrade a config change while one is
pending; append and broadcast. -/
def handleLeaderPropose (r : RaftState) (m : Message) : RaftState :=
  if selfRemoved r then r
  else if leaderTransfering r then r
  else
    let step := fun (acc : RaftState × List LogEntry) (e : LogEntry) =>
      if e.type = .ConfigChangeEntry then
        if hasPendingConfigChange acc.1 then
          (setPendingConfigChange acc.1, acc.2 ++ [{ type := .ApplicationEntry }])
        else (setPendingConfigChange acc.1, acc.2 ++ [e])
      else (acc.1, acc.2 ++ [e])
    let res := m.entries.foldl step (r, [])
    let r := appendEntries res.1 res.2
    broadcastReplicateMessage r

/-- raft.go hasCommittedEntryAtCurrentTerm: whether the entry at the
committed index carries the current term; a compacted read leaves the Go
zero value 0 which never equals a positive current term (Go panics on
term 0 and on other log errors; embedded as false). -/
def hasCommittedEntryAtCurrentTerm (r : RaftState) : Bool :=
  match r.log.term r.log.committed with
  | .ok t => t == r.term
  | .error .compacted => 0 == r.term
  | .error .unavailable => false

/-- raft.go addReadyToRead. -/
def addReadyToRead (r : RaftState) (index : Nat) (ctx : SystemCtx) : RaftState :=
  { r with readyToRead := r.readyToRead ++ [{ index := index, systemCtx := ctx }] }

/-- raft.go handleLeaderReadIndex: under a multi-node quorum the request
is dropped while no current-term entry is committed, and otherwise
queued and confirmed through a heartbeat round; a single-node quorum
serves the read at once, answering an observer that forwarded it.  (The
selfRemoved case only logs a warning in Go and proceeds.) -/
def handleLeaderReadIndex (r : RaftState) (m : Message) : RaftState :=
  let ctx : SystemCtx := { high := m.hintHigh, low := m.hint }
  if ! isSingleNodeQuorum r then
    if ! hasCommittedEntryAtCurrentTerm r then r
    else
      let r := { r with
        readIndex := r.readIndex.addRequest r.log.committed ctx m.mfrom }
      broadcastHeartbeatMessageWithHint r ctx
  else
    let r := addReadyToRead r r.log.committed ctx
    if m.mfrom ≠ r.nodeID ∧ (assocFind r.observers m.mfrom).isSome then
      send r { mto := m.mfrom, type := .ReadIndexResp, logIndex := r.log.committed,
               hint := m.hint, hintHigh := m.hintHigh, commit := m.commit }
    else r

/-- raft.go enterRetryState (applied through the stored record). -/
def enterRetryState (r : RaftState) (id : Nat) : RaftState :=
  modifyRemote r id
    (fun rp => if rp.state = .replicate then rp.becomeRetry else rp)

/-- raft.go handleLeaderReplicateResp. -/
def handleLeaderReplicateResp (r : RaftState) (m : Message) (rp : Remote) : RaftState :=
  let rp := rp.setActive
  let r := modifyRemote r m.mfrom (fun _ => rp)
  if ! m.reject then
    let paused := rp.isPaused
    let upd := rp.tryUpdate m.logIndex
    let rp := upd.2
    let r := modifyRemote r m.mfrom (fun _ => rp)
    if upd.1 then
      let rp := rp.respondedTo
      let r := modifyRemote r m.mfrom (fun _ => rp)
      let res := tryCommit r
      let r :=
        if res.1 then broadcastReplicateMessage res.2
        else if paused then sendReplicateMessage res.2 m.mfrom
        else res.2
      if leaderTransfering r ∧ m.mfrom = r.leaderTransferTarget ∧
          r.log.lastIndex = rp.rmatch then
        sendTimeoutNowMessage r r.leaderTransferTarget
      else r
    else r
  else
    let dec := rp.decreaseTo m.logIndex m.hint
    if dec.1 then
      let r := modifyRemote r m.mfrom (fun _ => dec.2)
      let r := enterRetryState r m.mfrom
      sendReplicateMessage r m.mfrom
    else r

/-- raft.go handleLeaderHeartbeatResp: reactivate the peer, resume
replication when it lags, and feed a carried read-index confirmation to
the readIndex engine. -/
def handleReadIndexLeaderConfirmation (r : RaftState) (m : Message) : RaftState :=
  let ctx : SystemCtx := { low := m.hint, high := m.hintHigh }
  let res := r.readIndex.confirm ctx m.mfrom (quorum r)
  let r := { r with readIndex := res.2 }
  res.1.foldl
    (fun acc s =>
      if s.mfrom = 0 ∨ s.mfrom = acc.nodeID then addReadyToRead acc s.index s.ctx
      else
        send acc { mto := s.mfrom, type := .ReadIndexResp, logIndex := s.index,
                   hint := m.hint, hintHigh := m.hintHigh })
    r

/-- raft.go handleLeaderHeartbeatResp. -/
def handleLeaderHeartbeatResp (r : RaftState) (m : Message) (rp : Remote) : RaftState :=
  let rp := rp.setActive.waitToRetry
  let r := modifyRemote r m.mfrom (fun _ => rp)
  let r := if rp.rmatch < r.log.lastIndex then sendReplicateMessage r m.mfrom else r
  if m.hint ≠ 0 then handleReadIndexLeaderConfirmation r m else r

/-- raft.go handleLeaderLeaderTransfer: record the target and send
TimeoutNow at once when it is caught up (Go panics on target 0, and
ignores an ongoing transfer or a self target). -/
def handleLeaderLeaderTransfer (r : RaftState) (m : Message) (rp : Remote) : RaftState :=
  let target := m.hint
  if target = 0 then r
  else if leaderTransfering r then r
  else if r.nodeID = target then r
  else
    let r := { r with leaderTransferTarget := target, electionTick := 0 }
    if rp.rmatch = r.log.lastIndex then sendTimeoutNowMessage r target else r

/-- raft.go handleLeaderSnapshotStatus. -/
def handleLeaderSnapshotStatus (r : RaftState) (m : Message) (rp : Remote) : RaftState :=
  if rp.state ≠ .snapshot then r
  else
    modifyRemote r m.mfrom (fun rp =>
      (if m.reject then rp.clearPendingSnapshot else rp).becomeWait)

/-- raft.go handleLeaderUnreachable. -/
def handleLeaderUnreachable (r : RaftState) (m : Message) (rp : Remote) : RaftState :=
  enterRetryState r m.mfrom

/-- raft.go handleFollowerPropose: forward to the known leader (the Go
code copies the entry slice for the transport; value semantics here). -/
def handleFollowerPropose (r : RaftState) (m : Message) : RaftState :=
  if r.leaderID = 0 then r
  else send r { m with mto := r.leaderID }

/-- raft.go handleFollowerReplicate. -/
def handleFollowerReplicate (r : RaftState) (m : Message) : RaftState :=
  let r := { r with electionTick := 0 }
  let r := setLeaderID r m.mfrom
  handleReplicateMessage r m

/-- raft.go handleFollowerHeartbeat. -/
def handleFollowerHeartbeat (r : RaftState) (m : Message) : RaftState :=
  let r := { r with electionTick := 0 }
  let r := setLeaderID r m.mfrom
  handleHeartbeatMessage r m

/-- raft.go handleFollowerReadIndex: forward to the known leader. -/
def handleFollowerReadIndex (r : RaftState) (m : Message) : RaftState :=
  if r.leaderID = 0 then r
  else send r { m with mto := r.leaderID }

/-- raft.go handleFollowerLeaderTransfer: reroute to the known leader. -/
def handleFollowerLeaderTransfer (r : RaftState) (m : Message) : RaftState :=
  if r.leaderID = 0 then r
  else send r { m with mto := r.leaderID }

/-- raft.go handleFollowerReadIndexResp. -/
def handleFollowerReadIndexResp (r : RaftState) (m : Message) : RaftState :=
  let ctx : SystemCtx := { low := m.hint, high := m.hintHigh }
  let r := { r with electionTick := 0 }
  let r := setLeaderID r m.mfrom
  addReadyToRead r m.logIndex ctx

/-- raft.go handleFollowerInstallSnapshot. -/
def handleFollowerInstallSnapshot (r : RaftState) (m : Message) : RaftState :=
  let r := { r with electionTick := 0 }
  let r := setLeaderID r m.mfrom
  handleInstallSnapshotMessage r m

/-- raft.go handleCandidatePropose: dropped, there is no leader. -/
def handleCandidatePropose (r : RaftState) (m : Message) : RaftState := r

/-- raft.go handleCandidateReplicate. -/
def handleCandidateReplicate (r : RaftState) (m : Message) : RaftState :=
  let r := becomeFollower r r.term m.mfrom
  handleReplicateMessage r m

/-- raft.go handleCandidateInstallSnapshot. -/
def handleCandidateInstallSnapshot (r : RaftState) (m : Message) : RaftState :=
  let r := becomeFollower r r.term m.mfrom
  handleInstallSnapshotMessage r m

/-- raft.go handleCandidateHeartbeat. -/
def handleCandidateHeartbeat (r : RaftState) (m : Message) : RaftState :=
  let r := becomeFollower r r.term m.mfrom
  handleHeartbeatMessage r m

/-- raft.go handleCandidateRequestVoteResp: ignore observers, tally the
response, win on a quorum of grants and concede on a quorum of
rejections. -/
def handleCandidateRequestVoteResp (r : RaftState) (m : Message) : RaftState :=
  if (assocFind r.observers m.mfrom).isSome then r
  else
    let res := handleVoteResp r m.mfrom m.reject
    let count := res.1
    let r := res.2
    if count = quorum r then broadcastReplicateMessage (becomeLeader r)
    else if r.votes.length - count = quorum r then becomeFollower r r.term 0
    else r

/-- The local Election message emitted by the tick path. -/
def electionMsg (nid : Nat) : Message := { type := .Election, mfrom := nid }

/-- The local CheckQuorum message emitted by the leader tick. -/
def checkQuorumMsg (nid : Nat) : Message := { type := .CheckQuorum, mfrom := nid }

/-- The local LeaderHeartbeat message emitted by the leader tick. -/
def leaderHeartbeatMsg (nid : Nat) : Message := { type := .LeaderHeartbeat, mfrom := nid }

/-- The dispatch of a local Election message through the handler table:
follower, candidate and leader run handleNodeElection, an observer has no
handler.  (Lemma Handle_electionMsg below proves this equal to a full
Handle call on the message, which is what the Go tick code performs.) -/
def dispatchElection (r : RaftState) : RaftState :=
  match r.state with
  | .observer => r
  | _ => handleNodeElection r (electionMsg r.nodeID)

/-- The dispatch of a local CheckQuorum message: only a leader has a
handler. -/
def dispatchCheckQuorum (r : RaftState) : RaftState :=
  if r.state = .leader then handleLeaderCheckQuorum r (checkQuorumMsg r.nodeID)
  else r

/-- The dispatch of a local LeaderHeartbeat message: only a leader has a
handler. -/
def dispatchLeaderHeartbeat (r : RaftState) : RaftState :=
  if r.state = .leader then handleLeaderLeaderHeartbeat r (leaderHeartbeatMsg r.nodeID)
  else r

/-- raft.go nonLeaderTick: observers only age; a voter that is still a
member campaigns once the randomized election timeout elapses.  (The Go
assertion that the node is no leader is guarded by tick.) -/
def nonLeaderTick (r : RaftState) : RaftState :=
  let r := { r with electionTick := r.electionTick + 1 }
  if isObserver r then r
  else if ¬ selfRemoved r ∧ timeForElection r then
    dispatchElection { r with electionTick := 0 }
  else r

/-- raft.go leaderTick: age the election tick, run check-quorum on its
timeout, abort a stale leader transfer, age the heartbeat tick and
broadcast heartbeats on its timeout. -/
def leaderTick (r : RaftState) : RaftState :=
  let r := { r with electionTick := r.electionTick + 1 }
  let abortNow := timeToAbortLeaderTransfer r
  let r :=
    if timeForCheckQuorum r then
      let r := { r with electionTick := 0 }
      if r.checkQuorum then dispatchCheckQuorum r else r
    else r
  let r := if abortNow then abortLeaderTransfer r else r
  let r := { r with heartbeatTick := r.heartbeatTick + 1 }
  if timeForHearbeat r then dispatchLeaderHeartbeat { r with heartbeatTick := 0 }
  else r

/-- raft.go tick. -/
def tick (r : RaftState) : RaftState :=
  let r := { r with tickCount := r.tickCount + 1 }
  if r.state = .leader then leaderTick r else nonLeaderTick r

/-- raft.go handleFollowerTimeoutNow: move the clock to the randomized
timeout, tag the node as the transfer target so its RequestVote carries
the stickiness-bypassing hint, and tick once. -/
def handleFollowerTimeoutNow (r : RaftState) (m : Message) : RaftState :=
  let r := { r with electionTick := r.randomizedElectionTimeout,
                    isLeaderTransferTarget := true }
  let r := tick r
  if r.isLeaderTransferTarget then { r with isLeaderTransferTarget := false } else r

/-- raft.go lw: leader handlers that need the peer record; a message from
an unknown node is ignored. -/
def lw (r : RaftState) (m : Message)
    (f : RaftState → Message → Remote → RaftState) : RaftState :=
  match getRemote r m.mfrom with
  | some rp => f r m rp
  | none => r

/-- raft.go defaultHandle over the handler table built by
initializeHandlerMap: the pairs left unfilled there (verified by
checkHandlerMap) fall through to the identity. -/
def defaultHandle (r : RaftState) (m : Message) : RaftState :=
  match r.state, m.type with
  | .candidate, .Heartbeat => handleCandidateHeartbeat r m
  | .candidate, .Propose => handleCandidatePropose r m
  | .candidate, .Replicate => handleCandidateReplicate r m
  | .candidate, .InstallSnapshot => handleCandidateInstallSnapshot r m
  | .candidate, .RequestVoteResp => handleCandidateRequestVoteResp r m
  | .candidate, .Election => handleNodeElection r m
  | .candidate, .RequestVote => handleNodeRequestVote r m
  | .follower, .Propose => handleFollowerPropose r m
  | .follower, .Replicate => handleFollowerReplicate r m
  | .follower, .Heartbeat => handleFollowerHeartbeat r m
  | .follower, .ReadIndex => handleFollowerReadIndex r m
  | .follower, .LeaderTransfer => handleFollowerLeaderTransfer r m
  | .follower, .ReadIndexResp => handleFollowerReadIndexResp r m
  | .follower, .InstallSnapshot => handleFollowerInstallSnapshot r m
  | .follower, .Election => handleNodeElection r m
  | .follower, .RequestVote => handleNodeRequestVote r m
  | .follower, .TimeoutNow => handleFollowerTimeoutNow r m
  | .leader, .LeaderHeartbeat => handleLeaderLeaderHeartbeat r m
  | .leader, .CheckQuorum => handleLeaderCheckQuorum r m
  | .leader, .Propose => handleLeaderPropose r m
  | .leader, .ReadIndex => handleLeaderReadIndex r m
  | .leader, .ReplicateResp => lw r m handleLeaderReplicateResp
  | .leader, .HeartbeatResp => lw r m handleLeaderHeartbeatResp
  | .leader, .SnapshotStatus => lw r m handleLeaderSnapshotStatus
  | .leader, .Unreachable => lw r m handleLeaderUnreachable
  | .leader, .LeaderTransfer => lw r m handleLeaderLeaderTransfer
  | .leader, .Election => handleNodeElection r m
  | .leader, .RequestVote => handleNodeRequestVote r m
  | .observer, .Heartbeat => handleFollowerHeartbeat r m
  | .observer, .Replicate => handleFollowerReplicate r m
  | .observer, .InstallSnapshot => handleFollowerInstallSnapshot r m
  | .observer, .Propose => handleFollowerPropose r m
  | .observer, .ReadIndex => handleFollowerReadIndex r m
  | .observer, .ReadIndexResp => handleFollowerReadIndexResp r m
  | _, _ => r

/-- raft.go Handle: term reconciliation, then dispatch.  (The Go
doubleCheckTermMatched assertion never fires after reconciliation.) -/
def Handle (r : RaftState) (m : Message) : RaftState :=
  let res := onMessageTermNotMatched r m
  if res.1 then res.2 else defaultHandle res.2 m


section Preservation
/-! Field-preservation simp lemmas: the staging and bookkeeping helpers
never touch the term, the vote, the node id or the role. -/
@[simp] theorem send_term (r : RaftState) (m : Message) :
    (send r m).term = r.term := rfl
@[simp] theorem send_vote (r : RaftState) (m : Message) :
    (send r m).vote = r.vote := rfl
@[simp] theorem send_nodeID (r : RaftState) (m : Message) :
    (send r m).nodeID = r.nodeID := rfl
@[simp] theorem send_state (r : RaftState) (m : Message) :
    (send r m).state = r.state := rfl
@[simp] theorem sendHeartbeatMessage_term (r : RaftState) (mto : Nat) (hint : SystemCtx) (b : Bool) :
    (sendHeartbeatMessage r mto hint b).term = r.term := rfl
@[simp] theorem sendHeartbeatMessage_vote (r : RaftState) (mto : Nat) (hint : SystemCtx) (b : Bool) :
    (sendHeartbeatMessage r mto hint b).vote = r.vote := rfl
@[simp] theorem sendHeartbeatMessage_nodeID (r : RaftState) (mto : Nat) (hint : SystemCtx) (b : Bool) :
    (sendHeartbeatMessage r mto hint b).nodeID = r.nodeID := rfl
@[simp] theorem sendHeartbeatMessage_state (r : RaftState) (mto : Nat) (hint : SystemCtx) (b : Bool) :
    (sendHeartbeatMessage r mto hint b).state = r.state := rfl
@[simp] theorem sendTimeoutNowMessage_term (r : RaftState) (t : Nat) :
    (sendTimeoutNowMessage r t).term = r.term := rfl
@[simp] theorem sendTimeoutNowMessage_vote (r : RaftState) (t : Nat) :
    (sendTimeoutNowMessage r t).vote = r.vote := rfl
@[simp] theorem sendTimeoutNowMessage_nodeID (r : RaftState) (t : Nat) :
    (sendTimeoutNowMessage r t).nodeID = r.nodeID := rfl
@[simp] theorem sendTimeoutNowMessage_state (r : RaftState) (t : Nat) :
    (sendTimeoutNowMessage r t).state = r.state := rfl
@[simp] theorem setLeaderID_term (r : RaftState) (id : Nat) :
    (setLeaderID r id).term = r.term := rfl
@[simp] theorem setLeaderID_vote (r : RaftState) (id : Nat) :
    (setLeaderID r id).vote = r.vote := rfl
@[simp] theorem setLeaderID_nodeID (r : RaftState) (id : Nat) :
    (setLeaderID r id).nodeID = r.nodeID := rfl
@[simp] theorem setLeaderID_state (r : RaftState) (id : Nat) :
    (setLeaderID r id).state = r.state := rfl
@[simp] theorem addReadyToRead_term (r : RaftState) (i : Nat) (c : SystemCtx) :
    (addReadyToRead r i c).term = r.term := rfl
@[simp] theorem addReadyToRead_vote (r : RaftState) (i : Nat) (c : SystemCtx) :
    (addReadyToRead r i c).vote = r.vote := rfl
@[simp] theorem addReadyToRead_nodeID (r : RaftState) (i : Nat) (c : SystemCtx) :
    (addReadyToRead r i c).nodeID = r.nodeID := rfl
@[simp] theorem addReadyToRead_state (r : RaftState) (i : Nat) (c : SystemCtx) :
    (addReadyToRead r i c).state = r.state := rfl
@[simp] theorem clearPendingConfigChange_term (r : RaftState) :
    (clearPendingConfigChange r).term = r.term := rfl
@[simp] theorem clearPendingConfigChange_vote (r : RaftState) :
    (clearPendingConfigChange r).vote = r.vote := rfl
@[simp] theorem clearPendingConfigChange_nodeID (r : RaftState) :
    (clearPendingConfigChange r).nodeID = r.nodeID := rfl
@[simp] theorem clearPendingConfigChange_state (r : RaftState) :
    (clearPendingConfigChange r).state = r.state := rfl
@[simp] theorem setPendingConfigChange_term (r : RaftState) :
    (setPendingConfigChange r).term = r.term := rfl
@[simp] theorem setPendingConfigChange_vote (r : RaftState) :
    (setPendingConfigChange r).vote = r.vote := rfl
@[simp] theorem setPendingConfigChange_nodeID (r : RaftState) :
    (setPendingConfigChange r).nodeID = r.nodeID := rfl
@[simp] theorem setPendingConfigChange_state (r : RaftState) :
    (setPendingConfigChange r).state = r.state := rfl
@[simp] theorem abortLeaderTransfer_term (r : RaftState) :
    (abortLeaderTransfer r).term = r.term := rfl
@[simp] theorem abortLeaderTransfer_vote (r : RaftState) :
    (abortLeaderTransfer r).vote = r.vote := rfl
@[simp] theorem abortLeaderTransfer_nodeID (r : RaftState) :
    (abortLeaderTransfer r).nodeID = r.nodeID := rfl
@[simp] theorem abortLeaderTransfer_state (r : RaftState) :
    (abortLeaderTransfer r).state = r.state := rfl
@[simp] theorem resetRemotes_term (r : RaftState) :
    (resetRemotes r).term = r.term := rfl
@[simp] theorem resetRemotes_vote (r : RaftState) :
    (resetRemotes r).vote = r.vote := rfl
@[simp] theorem resetRemotes_nodeID (r : RaftState) :
    (resetRemotes r).nodeID = r.nodeID := rfl
@[simp] theorem resetRemotes_state (r : RaftState) :
    (resetRemotes r).state = r.state := rfl
@[simp] theorem resetObservers_term (r : RaftState) :
    (resetObservers r).term = r.term := rfl
@[simp] theorem resetObservers_vote (r : RaftState) :
    (resetObservers r).vote = r.vote := rfl
@[simp] theorem resetObservers_nodeID (r : RaftState) :
    (resetObservers r).nodeID = r.nodeID := rfl
@[simp] theorem resetObservers_state (r : RaftState) :
    (resetObservers r).state = r.state := rfl
@[simp] theorem resetMatchValueArray_term (r : RaftState) :
    (resetMatchValueArray r).term = r.term := rfl
@[simp] theorem resetMatchValueArray_vote (r : RaftState) :
    (resetMatchValueArray r).vote = r.vote := rfl
@[simp] theorem resetMatchValueArray_nodeID (r : RaftState) :
    (resetMatchValueArray r).nodeID = r.nodeID := rfl
@[simp] theorem resetMatchValueArray_state (r : RaftState) :
    (resetMatchValueArray r).state = r.state := rfl
@[simp] theorem setRandomizedElectionTimeout_term (r : RaftState) :
    (setRandomizedElectionTimeout r).term = r.term := rfl
@[simp] theorem setRandomizedElectionTimeout_vote (r : RaftState) :
    (setRandomizedElectionTimeout r).vote = r.vote := rfl
@[simp] theorem setRandomizedElectionTimeout_nodeID (r : RaftState) :
    (setRandomizedElectionTimeout r).nodeID = r.nodeID := rfl
@[simp] theorem setRandomizedElectionTimeout_state (r : RaftState) :
    (setRandomizedElectionTimeout r).state = r.state := rfl

@[simp] theorem tryCommit_term (r : RaftState) : (tryCommit r).2.term = r.term := rfl

@[simp] theorem tryCommit_vote (r : RaftState) : (tryCommit r).2.vote = r.vote := rfl

@[simp] theorem tryCommit_nodeID (r : RaftState) : (tryCommit r).2.nodeID = r.nodeID := rfl

@[simp] theorem tryCommit_state (r : RaftState) : (tryCommit r).2.state = r.state := rfl

@[simp] theorem modifyRemote_term (r : RaftState) (id : Nat) (f : Remote → Remote) :
    (modifyRemote r id f).term = r.term := by
  unfold modifyRemote; split <;> rfl

@[simp] theorem modifyRemote_vote (r : RaftState) (id : Nat) (f : Remote → Remote) :
    (modifyRemote r id f).vote = r.vote := by
  unfold modifyRemote; split <;> rfl

@[simp] theorem modifyRemote_nodeID (r : RaftState) (id : Nat) (f : Remote → Remote) :
    (modifyRemote r id f).nodeID = r.nodeID := by
  unfold modifyRemote; split <;> rfl

@[simp] theorem modifyRemote_state (r : RaftState) (id : Nat) (f : Remote → Remote) :
    (modifyRemote r id f).state = r.state := by
  unfold modifyRemote; split <;> rfl

@[simp] theorem enterRetryState_term (r : RaftState) (id : Nat) :
    (enterRetryState r id).term = r.term := by
  unfold enterRetryState; simp

@[simp] theorem enterRetryState_vote (r : RaftState) (id : Nat) :
    (enterRetryState r id).vote = r.vote := by
  unfold enterRetryState; simp

@[simp] theorem enterRetryState_nodeID (r : RaftState) (id : Nat) :
    (enterRetryState r id).nodeID = r.nodeID := by
  unfold enterRetryState; simp

@[simp] theorem enterRetryState_state (r : RaftState) (id : Nat) :
    (enterRetryState r id).state = r.state := by
  unfold enterRetryState; simp

@[simp] theorem leaderHasQuorum_term (r : RaftState) :
    (leaderHasQuorum r).2.term = r.term := rfl

@[simp] theorem leaderHasQuorum_vote (r : RaftState) :
    (leaderHasQuorum r).2.vote = r.vote := rfl

@[simp] theorem leaderHasQuorum_nodeID (r : RaftState) :
    (leaderHasQuorum r).2.nodeID = r.nodeID := rfl

@[simp] theorem leaderHasQuorum_state (r : RaftState) :
    (leaderHasQuorum r).2.state = r.state := rfl

@[simp] theorem handleVoteResp_term (r : RaftState) (nid : Nat) (b : Bool) :
    (handleVoteResp r nid b).2.term = r.term := rfl

@[simp] theorem handleVoteResp_vote (r : RaftState) (nid : Nat) (b : Bool) :
    (handleVoteResp r nid b).2.vote = r.vote := rfl

@[simp] theorem handleVoteResp_nodeID (r : RaftState) (nid : Nat) (b : Bool) :
    (handleVoteResp r nid b).2.nodeID = r.nodeID := rfl

@[simp] theorem handleVoteResp_state (r : RaftState) (nid : Nat) (b : Bool) :
    (handleVoteResp r nid b).2.state = r.state := rfl

/-- Generic preservation of a projection along a list fold. -/
theorem foldl_field {α β γ : Type} (g : α → β) (f : α → γ → α)
    (h : ∀ s x, g (f s x) = g s) (l : List γ) (r : α) :
    g (l.foldl f r) = g r := by
  induction l generalizing r with
  | nil => rfl
  | cons x xs ih => simp only [List.foldl_cons, ih, h]

@[simp] theorem sendReplicateMessage_term (r : RaftState) (mto : Nat) :
    (sendReplicateMessage r mto).term = r.term := by
  unfold sendReplicateMessage
  dsimp only
  repeat' split
  all_goals simp

@[simp] theorem sendReplicateMessage_vote (r : RaftState) (mto : Nat) :
    (sendReplicateMessage r mto).vote = r.vote := by
  unfold sendReplicateMessage
  dsimp only
  repeat' split
  all_goals simp

@[simp] theorem sendReplicateMessage_nodeID (r : RaftState) (mto : Nat) :
    (sendReplicateMessage r mto).nodeID = r.nodeID := by
  unfold sendReplicateMessage
  dsimp only
  repeat' split
  all_goals simp

@[simp] theorem sendReplicateMessage_state (r : RaftState) (mto : Nat) :
    (sendReplicateMessage r mto).state = r.state := by
  unfold sendReplicateMessage
  dsimp only
  repeat' split
  all_goals simp

@[simp] theorem broadcastReplicateMessage_term (r : RaftState) :
    (broadcastReplicateMessage r).term = r.term := by
  unfold broadcastReplicateMessage
  rw [foldl_field RaftState.term _ (fun s x => by simp) _ _,
      foldl_field RaftState.term _ (fun s x => by split <;> simp) _ _]

@[simp] theorem broadcastReplicateMessage_vote (r : RaftState) :
    (broadcastReplicateMessage r).vote = r.vote := by
  unfold broadcastReplicateMessage
  rw [foldl_field RaftState.vote _ (fun s x => by simp) _ _,
      foldl_field RaftState.vote _ (fun s x => by split <;> simp) _ _]

@[simp] theorem broadcastReplicateMessage_nodeID (r : RaftState) :
    (broadcastReplicateMessage r).nodeID = r.nodeID := by
  unfold broadcastReplicateMessage
  rw [foldl_field RaftState.nodeID _ (fun s x => by simp) _ _,
      foldl_field RaftState.nodeID _ (fun s x => by split <;> simp) _ _]

@[simp] theorem broadcastReplicateMessage_state (r : RaftState) :
    (broadcastReplicateMessage r).state = r.state := by
  unfold broadcastReplicateMessage
  rw [foldl_field RaftState.state _ (fun s x => by simp) _ _,
      foldl_field RaftState.state _ (fun s x => by split <;> simp) _ _]

@[simp] theorem broadcastHeartbeatMessageWithHint_term (r : RaftState) (c : SystemCtx) :
    (broadcastHeartbeatMessageWithHint r c).term = r.term := by
  unfold broadcastHeartbeatMessageWithHint
  dsimp only
  split
  · rw [foldl_field RaftState.term _ (fun s x => by simp) _ _,
        foldl_field RaftState.term _ (fun s x => by split <;> simp) _ _]
  · rw [foldl_field RaftState.term _ (fun s x => by split <;> simp) _ _]

@[simp] theorem broadcastHeartbeatMessageWithHint_vote (r : RaftState) (c : SystemCtx) :
    (broadcastHeartbeatMessageWithHint r c).vote = r.vote := by
  unfold broadcastHeartbeatMessageWithHint
  dsimp only
  split
  · rw [foldl_field RaftState.vote _ (fun s x => by simp) _ _,
        foldl_field RaftState.vote _ (fun s x => by split <;> simp) _ _]
  · rw [foldl_field RaftState.vote _ (fun s x => by split <;> simp) _ _]

@[simp] theorem broadcastHeartbeatMessageWithHint_nodeID (r : RaftState) (c : SystemCtx) :
    (broadcastHeartbeatMessageWithHint r c).nodeID = r.nodeID := by
  unfold broadcastHeartbeatMessageWithHint
  dsimp only
  split
  · rw [foldl_field RaftState.nodeID _ (fun s x => by simp) _ _,
        foldl_field RaftState.nodeID _ (fun s x => by split <;> simp) _ _]
  · rw [foldl_field RaftState.nodeID _ (fun s x => by split <;> simp) _ _]

@[simp] theorem broadcastHeartbeatMessageWithHint_state (r : RaftState) (c : SystemCtx) :
    (broadcastHeartbeatMessageWithHint r c).state = r.state := by
  unfold broadcastHeartbeatMessageWithHint
  dsimp only
  split
  · rw [foldl_field RaftState.state _ (fun s x => by simp) _ _,
        foldl_field RaftState.state _ (fun s x => by split <;> simp) _ _]
  · rw [foldl_field RaftState.state _ (fun s x => by split <;> simp) _ _]

@[simp] theorem broadcastHeartbeatMessage_term (r : RaftState) :
    (broadcastHeartbeatMessage r).term = r.term := by
  unfold broadcastHeartbeatMessage; split <;> simp

@[simp] theorem broadcastHeartbeatMessage_vote (r : RaftState) :
    (broadcastHeartbeatMessage r).vote = r.vote := by
  unfold broadcastHeartbeatMessage; split <;> simp

@[simp] theorem broadcastHeartbeatMessage_nodeID (r : RaftState) :
    (broadcastHeartbeatMessage r).nodeID = r.nodeID := by
  unfold broadcastHeartbeatMessage; split <;> simp

@[simp] theorem broadcastHeartbeatMessage_state (r : RaftState) :
    (broadcastHeartbeatMessage r).state = r.state := by
  unfold broadcastHeartbeatMessage; split <;> simp

@[simp] theorem appendEntries_term (r : RaftState) (l : List LogEntry) :
    (appendEntries r l).term = r.term := by
  unfold appendEntries; dsimp only; split <;> simp

@[simp] theorem appendEntries_vote (r : RaftState) (l : List LogEntry) :
    (appendEntries r l).vote = r.vote := by
  unfold appendEntries; dsimp only; split <;> simp

@[simp] theorem appendEntries_nodeID (r : RaftState) (l : List LogEntry) :
    (appendEntries r l).nodeID = r.nodeID := by
  unfold appendEntries; dsimp only; split <;> simp

@[simp] theorem appendEntries_state (r : RaftState) (l : List LogEntry) :
    (appendEntries r l).state = r.state := by
  unfold appendEntries; dsimp only; split <;> simp

@[simp] theorem preLeaderPromotionHandleConfigChange_term (r : RaftState) :
    (preLeaderPromotionHandleConfigChange r).term = r.term := by
  unfold preLeaderPromotionHandleConfigChange; dsimp only; repeat' split
  all_goals simp

@[simp] theorem preLeaderPromotionHandleConfigChange_vote (r : RaftState) :
    (preLeaderPromotionHandleConfigChange r).vote = r.vote := by
  unfold preLeaderPromotionHandleConfigChange; dsimp only; repeat' split
  all_goals simp

@[simp] theorem preLeaderPromotionHandleConfigChange_nodeID (r : RaftState) :
    (preLeaderPromotionHandleConfigChange r).nodeID = r.nodeID := by
  unfold preLeaderPromotionHandleConfigChange; dsimp only; repeat' split
  all_goals simp

@[simp] theorem preLeaderPromotionHandleConfigChange_state (r : RaftState) :
    (preLeaderPromotionHandleConfigChange r).state = r.state := by
  unfold preLeaderPromotionHandleConfigChange; dsimp only; repeat' split
  all_goals simp

@[simp] theorem restore_term (r : RaftState) (ss : Snapshot) :
    (restore r ss).2.term = r.term := by
  unfold restore
  repeat' split
  all_goals simp

@[simp] theorem restore_vote (r : RaftState) (ss : Snapshot) :
    (restore r ss).2.vote = r.vote := by
  unfold restore
  repeat' split
  all_goals simp

@[simp] theorem restore_nodeID (r : RaftState) (ss : Snapshot) :
    (restore r ss).2.nodeID = r.nodeID := by
  unfold restore
  repeat' split
  all_goals simp

@[simp] theorem restore_state (r : RaftState) (ss : Snapshot) :
    (restore r ss).2.state = r.state := by
  unfold restore
  repeat' split
  all_goals simp

@[simp] theorem reset_term (r : RaftState) (t : Nat) : (reset r t).term = t := by
  unfold reset; split <;> simp_all

@[simp] theorem reset_state (r : RaftState) (t : Nat) : (reset r t).state = r.state := by
  unfold reset; split <;> simp

@[simp] theorem reset_nodeID (r : RaftState) (t : Nat) : (reset r t).nodeID = r.nodeID := by
  unfold reset; split <;> simp

theorem reset_vote (r : RaftState) (t : Nat) :
    (reset r t).vote = if r.term = t then r.vote else 0 := by
  unfold reset; split <;> simp_all


theorem becomeFollower_term (r : RaftState) (t id : Nat) :
    (becomeFollower r t id).term = t := by
  unfold becomeFollower; simp

theorem becomeFollower_vote (r : RaftState) (t id : Nat) :
    (becomeFollower r t id).vote = if r.term = t then r.vote else 0 := by
  unfold becomeFollower; simp [reset_vote]

@[simp] theorem becomeFollower_nodeID (r : RaftState) (t id : Nat) :
    (becomeFollower r t id).nodeID = r.nodeID := by
  unfold becomeFollower; simp

@[simp] theorem becomeFollower_state (r : RaftState) (t id : Nat) :
    (becomeFollower r t id).state = .follower := by
  unfold becomeFollower; simp

theorem becomeObserver_term (r : RaftState) (t id : Nat) (h : r.state = .observer) :
    (becomeObserver r t id).term = t := by
  unfold becomeObserver; rw [if_neg (by simp [h])]; simp

theorem becomeObserver_vote (r : RaftState) (t id : Nat) (h : r.state = .observer) :
    (becomeObserver r t id).vote = if r.term = t then r.vote else 0 := by
  unfold becomeObserver; rw [if_neg (by simp [h])]; simp [reset_vote]

theorem becomeObserver_nodeID (r : RaftState) (t id : Nat) :
    (becomeObserver r t id).nodeID = r.nodeID := by
  unfold becomeObserver; split <;> simp

theorem becomeObserver_state (r : RaftState) (t id : Nat) :
    (becomeObserver r t id).state = r.state := by
  unfold becomeObserver
  split
  · rfl
  · simp_all

theorem becomeCandidate_char (r : RaftState)
    (h : ¬ (r.state = .leader ∨ r.state = .observer)) :
    (becomeCandidate r).term = r.term + 1 ∧ (becomeCandidate r).vote = r.nodeID ∧
    (becomeCandidate r).state = .candidate ∧ (becomeCandidate r).nodeID = r.nodeID := by
  unfold becomeCandidate
  rw [if_neg h]
  simp

/-- becomeLeader never changes the term, the vote or the node id: from a
candidate or a leader it resets at the unchanged term, and the Go code
panics on the remaining roles (identity here). -/
theorem becomeLeader_tv (r : RaftState) :
    (becomeLeader r).term = r.term ∧ (becomeLeader r).vote = r.vote ∧
    (becomeLeader r).nodeID = r.nodeID := by
  unfold becomeLeader
  split
  · simp
  · simp [reset_vote]

theorem becomeLeader_state (r : RaftState)
    (h : ¬ (r.state = .follower ∨ r.state = .observer)) :
    (becomeLeader r).state = .leader := by
  unfold becomeLeader
  rw [if_neg h]
  simp

theorem campaign_char (r : RaftState)
    (h : r.state = .follower ∨ r.state = .candidate) :
    (campaign r).term = r.term + 1 ∧ (campaign r).vote = r.nodeID ∧
    (campaign r).nodeID = r.nodeID ∧
    ((campaign r).state = .candidate ∨ (campaign r).state = .leader) := by
  have hne : ¬ (r.state = .leader ∨ r.state = .observer) := by
    rcases h with h | h <;> simp [h]
  obtain ⟨ht, hv, hs, hn⟩ := becomeCandidate_char r hne
  unfold campaign
  dsimp only
  split
  · have hsv : ((handleVoteResp (becomeCandidate r)
        (becomeCandidate r).nodeID false).2).state = .candidate := by
      rw [handleVoteResp_state, hs]
    obtain ⟨lt, lv, ln⟩ := becomeLeader_tv
      ((handleVoteResp (becomeCandidate r) (becomeCandidate r).nodeID false).2)
    refine ⟨?_, ?_, ?_, Or.inr ?_⟩
    · rw [lt, handleVoteResp_term, ht]
    · rw [lv, handleVoteResp_vote, hv]
    · rw [ln, handleVoteResp_nodeID, hn]
    · rw [becomeLeader_state _ (by rw [hsv]; simp)]
  · refine ⟨?_, ?_, ?_, Or.inl ?_⟩
    · rw [foldl_field RaftState.term _ (fun s x => by split <;> simp) _ _]
      split <;> simp [ht]
    · rw [foldl_field RaftState.vote _ (fun s x => by split <;> simp) _ _]
      split <;> simp [hv, hn]
    · rw [foldl_field RaftState.nodeID _ (fun s x => by split <;> simp) _ _]
      split <;> simp [hn]
    · rw [foldl_field RaftState.state _ (fun s x => by split <;> simp) _ _]
      split <;> simp [hs]

/-- campaign seen from any role: the term never drops, and a vote change
can only self-vote. -/
theorem campaign_spec (r : RaftState) :
    (campaign r).nodeID = r.nodeID ∧ r.term ≤ (campaign r).term ∧
    ((campaign r).vote = r.vote ∨ (campaign r).vote = r.nodeID) ∧
    (r.term < (campaign r).term → (campaign r).vote = r.nodeID) := by
  by_cases h : r.state = .follower ∨ r.state = .candidate
  · obtain ⟨ht, hv, hn, _⟩ := campaign_char r h
    exact ⟨hn, by omega, Or.inr hv, fun _ => hv⟩
  · have hbc : becomeCandidate r = r := by
      unfold becomeCandidate
      rw [if_pos]
      cases hs : r.state <;> simp_all
    have key : (campaign r).nodeID = r.nodeID ∧ (campaign r).term = r.term ∧
        (campaign r).vote = r.vote := by
      unfold campaign
      dsimp only
      rw [hbc]
      split
      · obtain ⟨lt, lv, ln⟩ := becomeLeader_tv ((handleVoteResp r r.nodeID false).2)
        refine ⟨?_, ?_, ?_⟩
        · rw [ln, handleVoteResp_nodeID]
        · rw [lt, handleVoteResp_term]
        · rw [lv, handleVoteResp_vote]
      · refine ⟨?_, ?_, ?_⟩
        · rw [foldl_field RaftState.nodeID _ (fun s x => by split <;> simp) _ _]
          split <;> simp
        · rw [foldl_field RaftState.term _ (fun s x => by split <;> simp) _ _]
          split <;> simp
        · rw [foldl_field RaftState.vote _ (fun s x => by split <;> simp) _ _]
          split <;> simp
    obtain ⟨hn, ht, hv⟩ := key
    exact ⟨hn, by omega, Or.inl hv, fun hlt => by omega⟩


theorem handleHeartbeatMessage_tv (r : RaftState) (m : Message) :
    (handleHeartbeatMessage r m).term = r.term ∧ (handleHeartbeatMessage r m).vote = r.vote ∧
    (handleHeartbeatMessage r m).nodeID = r.nodeID ∧ (handleHeartbeatMessage r m).state = r.state := by
  refine ⟨?_, ?_, ?_, ?_⟩ <;>
    (unfold handleHeartbeatMessage
     try dsimp only
     repeat' split
     all_goals simp)

theorem handleReplicateMessage_tv (r : RaftState) (m : Message) :
    (handleReplicateMessage r m).term = r.term ∧ (handleReplicateMessage r m).vote = r.vote ∧
    (handleReplicateMessage r m).nodeID = r.nodeID ∧ (handleReplicateMessage r m).state = r.state := by
  refine ⟨?_, ?_, ?_, ?_⟩ <;>
    (unfold handleReplicateMessage
     try dsimp only
     repeat' split
     all_goals simp)

theorem handleInstallSnapshotMessage_tv (r : RaftState) (m : Message) :
    (handleInstallSnapshotMessage r m).term = r.term ∧ (handleInstallSnapshotMessage r m).vote = r.vote ∧
    (handleInstallSnapshotMessage r m).nodeID = r.nodeID ∧ (handleInstallSnapshotMessage r m).state = r.state := by
  refine ⟨?_, ?_, ?_, ?_⟩ <;>
    (unfold handleInstallSnapshotMessage
     try dsimp only
     repeat' split
     all_goals simp)

theorem handleLeaderLeaderHeartbeat_tv (r : RaftState) (m : Message) :
    (handleLeaderLeaderHeartbeat r m).term = r.term ∧ (handleLeaderLeaderHeartbeat r m).vote = r.vote ∧
    (handleLeaderLeaderHeartbeat r m).nodeID = r.nodeID ∧ (handleLeaderLeaderHeartbeat r m).state = r.state := by
  refine ⟨?_, ?_, ?_, ?_⟩ <;>
    (unfold handleLeaderLeaderHeartbeat
     try dsimp only
     repeat' split
     all_goals simp)

theorem handleLeaderReadIndex_tv (r : RaftState) (m : Message) :
    (handleLeaderReadIndex r m).term = r.term ∧ (handleLeaderReadIndex r m).vote = r.vote ∧
    (handleLeaderReadIndex r m).nodeID = r.nodeID ∧ (handleLeaderReadIndex r m).state = r.state := by
  refine ⟨?_, ?_, ?_, ?_⟩ <;>
    (unfold handleLeaderReadIndex
     try dsimp only
     repeat' split
     all_goals simp)

theorem handleLeaderSnapshotStatus_tv (r : RaftState) (m : Message) (rp : Remote) :
    (handleLeaderSnapshotStatus r m rp).term = r.term ∧ (handleLeaderSnapshotStatus r m rp).vote = r.vote ∧
    (handleLeaderSnapshotStatus r m rp).nodeID = r.nodeID ∧ (handleLeaderSnapshotStatus r m rp).state = r.state := by
  refine ⟨?_, ?_, ?_, ?_⟩ <;>
    (unfold handleLeaderSnapshotStatus
     try dsimp only
     repeat' split
     all_goals simp)

theorem handleLeaderUnreachable_tv (r : RaftState) (m : Message) (rp : Remote) :
    (handleLeaderUnreachable r m rp).term = r.term ∧ (handleLeaderUnreachable r m rp).vote = r.vote ∧
    (handleLeaderUnreachable r m rp).nodeID = r.nodeID ∧ (handleLeaderUnreachable r m rp).state = r.state := by
  refine ⟨?_, ?_, ?_, ?_⟩ <;>
    (unfold handleLeaderUnreachable
     try dsimp only
     repeat' split
     all_goals simp)

theorem handleLeaderLeaderTransfer_tv (r : RaftState) (m : Message) (rp : Remote) :
    (handleLeaderLeaderTransfer r m rp).term = r.term ∧ (handleLeaderLeaderTransfer r m rp).vote = r.vote ∧
    (handleLeaderLeaderTransfer r m rp).nodeID = r.nodeID ∧ (handleLeaderLeaderTransfer r m rp).state = r.state := by
  refine ⟨?_, ?_, ?_, ?_⟩ <;>
    (unfold handleLeaderLeaderTransfer
     try dsimp only
     repeat' split
     all_goals simp)

theorem handleFollowerPropose_tv (r : RaftState) (m : Message) :
    (handleFollowerPropose r m).term = r.term ∧ (handleFollowerPropose r m).vote = r.vote ∧
    (handleFollowerPropose r m).nodeID = r.nodeID ∧ (handleFollowerPropose r m).state = r.state := by
  refine ⟨?_, ?_, ?_, ?_⟩ <;>
    (unfold handleFollowerPropose
     try dsimp only
     repeat' split
     all_goals simp)

theorem handleFollowerReadIndex_tv (r : RaftState) (m : Message) :
    (handleFollowerReadIndex r m).term = r.term ∧ (handleFollowerReadIndex r m).vote = r.vote ∧
    (handleFollowerReadIndex r m).nodeID = r.nodeID ∧ (handleFollowerReadIndex r m).state = r.state := by
  refine ⟨?_, ?_, ?_, ?_⟩ <;>
    (unfold handleFollowerReadIndex
     try dsimp only
     repeat' split
     all_goals simp)

theorem handleFollowerLeaderTransfer_tv (r : RaftState) (m : Message) :
    (handleFollowerLeaderTransfer r m).term = r.term ∧ (handleFollowerLeaderTransfer r m).vote = r.vote ∧
    (handleFollowerLeaderTransfer r m).nodeID = r.nodeID ∧ (handleFollowerLeaderTransfer r m).state = r.state := by
  refine ⟨?_, ?_, ?_, ?_⟩ <;>
    (unfold handleFollowerLeaderTransfer
     try dsimp only
     repeat' split
     all_goals simp)

theorem handleFollowerReadIndexResp_tv (r : RaftState) (m : Message) :
    (handleFollowerReadIndexResp r m).term = r.term ∧ (handleFollowerReadIndexResp r m).vote = r.vote ∧
    (handleFollowerReadIndexResp r m).nodeID = r.nodeID ∧ (handleFollowerReadIndexResp r m).state = r.state := by
  refine ⟨?_, ?_, ?_, ?_⟩ <;>
    (unfold handleFollowerReadIndexResp
     try dsimp only
     repeat' split
     all_goals simp)

theorem handleCandidatePropose_tv (r : RaftState) (m : Message) :
    (handleCandidatePropose r m).term = r.term ∧ (handleCandidatePropose r m).vote = r.vote ∧
    (handleCandidatePropose r m).nodeID = r.nodeID ∧ (handleCandidatePropose r m).state = r.state := by
  refine ⟨?_, ?_, ?_, ?_⟩ <;>
    (unfold handleCandidatePropose
     try dsimp only
     repeat' split
     all_goals simp)

theorem handleFollowerReplicate_tv (r : RaftState) (m : Message) :
    (handleFollowerReplicate r m).term = r.term ∧
    (handleFollowerReplicate r m).vote = r.vote ∧
    (handleFollowerReplicate r m).nodeID = r.nodeID ∧
    (handleFollowerReplicate r m).state = r.state := by
  unfold handleFollowerReplicate
  simp [handleReplicateMessage_tv]

theorem handleFollowerHeartbeat_tv (r : RaftState) (m : Message) :
    (handleFollowerHeartbeat r m).term = r.term ∧
    (handleFollowerHeartbeat r m).vote = r.vote ∧
    (handleFollowerHeartbeat r m).nodeID = r.nodeID ∧
    (handleFollowerHeartbeat r m).state = r.state := by
  unfold handleFollowerHeartbeat
  simp [handleHeartbeatMessage_tv]

theorem handleFollowerInstallSnapshot_tv (r : RaftState) (m : Message) :
    (handleFollowerInstallSnapshot r m).term = r.term ∧
    (handleFollowerInstallSnapshot r m).vote = r.vote ∧
    (handleFollowerInstallSnapshot r m).nodeID = r.nodeID ∧
    (handleFollowerInstallSnapshot r m).state = r.state := by
  unfold handleFollowerInstallSnapshot
  simp [handleInstallSnapshotMessage_tv]

theorem handleLeaderCheckQuorum_tv (r : RaftState) (m : Message) :
    (handleLeaderCheckQuorum r m).term = r.term ∧
    (handleLeaderCheckQuorum r m).vote = r.vote ∧
    (handleLeaderCheckQuorum r m).nodeID = r.nodeID := by
  unfold handleLeaderCheckQuorum
  dsimp only
  split <;> simp [becomeFollower_term, becomeFollower_vote]

theorem handleCandidateReplicate_tv (r : RaftState) (m : Message) :
    (handleCandidateReplicate r m).term = r.term ∧
    (handleCandidateReplicate r m).vote = r.vote ∧
    (handleCandidateReplicate r m).nodeID = r.nodeID := by
  unfold handleCandidateReplicate
  simp [handleReplicateMessage_tv, becomeFollower_term, becomeFollower_vote]

theorem handleCandidateInstallSnapshot_tv (r : RaftState) (m : Message) :
    (handleCandidateInstallSnapshot r m).term = r.term ∧
    (handleCandidateInstallSnapshot r m).vote = r.vote ∧
    (handleCandidateInstallSnapshot r m).nodeID = r.nodeID := by
  unfold handleCandidateInstallSnapshot
  simp [handleInstallSnapshotMessage_tv, becomeFollower_term, becomeFollower_vote]

theorem handleCandidateHeartbeat_tv (r : RaftState) (m : Message) :
    (handleCandidateHeartbeat r m).term = r.term ∧
    (handleCandidateHeartbeat r m).vote = r.vote ∧
    (handleCandidateHeartbeat r m).nodeID = r.nodeID := by
  unfold handleCandidateHeartbeat
  simp [handleHeartbeatMessage_tv, becomeFollower_term, becomeFollower_vote]

theorem handleCandidateRequestVoteResp_tv (r : RaftState) (m : Message) :
    (handleCandidateRequestVoteResp r m).term = r.term ∧
    (handleCandidateRequestVoteResp r m).vote = r.vote ∧
    (handleCandidateRequestVoteResp r m).nodeID = r.nodeID := by
  unfold handleCandidateRequestVoteResp
  dsimp only
  repeat' split
  all_goals simp [becomeLeader_tv, becomeFollower_term, becomeFollower_vote]

theorem handleNodeRequestVote_spec (r : RaftState) (m : Message) :
    (handleNodeRequestVote r m).term = r.term ∧
    (handleNodeRequestVote r m).nodeID = r.nodeID ∧
    (handleNodeRequestVote r m).state = r.state ∧
    ((handleNodeRequestVote r m).vote = r.vote ∨
      (handleNodeRequestVote r m).vote = m.mfrom) := by
  unfold handleNodeRequestVote
  dsimp only
  split <;> simp

theorem handleReadIndexLeaderConfirmation_tv (r : RaftState) (m : Message) :
    (handleReadIndexLeaderConfirmation r m).term = r.term ∧
    (handleReadIndexLeaderConfirmation r m).vote = r.vote ∧
    (handleReadIndexLeaderConfirmation r m).nodeID = r.nodeID ∧
    (handleReadIndexLeaderConfirmation r m).state = r.state := by
  unfold handleReadIndexLeaderConfirmation
  dsimp only
  refine ⟨?_, ?_, ?_, ?_⟩
  · rw [foldl_field RaftState.term _ (fun s x => by split <;> simp) _ _]
  · rw [foldl_field RaftState.vote _ (fun s x => by split <;> simp) _ _]
  · rw [foldl_field RaftState.nodeID _ (fun s x => by split <;> simp) _ _]
  · rw [foldl_field RaftState.state _ (fun s x => by split <;> simp) _ _]

theorem handleLeaderHeartbeatResp_tv (r : RaftState) (m : Message) (rp : Remote) :
    (handleLeaderHeartbeatResp r m rp).term = r.term ∧
    (handleLeaderHeartbeatResp r m rp).vote = r.vote ∧
    (handleLeaderHeartbeatResp r m rp).nodeID = r.nodeID ∧
    (handleLeaderHeartbeatResp r m rp).state = r.state := by
  unfold handleLeaderHeartbeatResp
  dsimp only
  repeat' split
  all_goals simp [handleReadIndexLeaderConfirmation_tv]

theorem handleLeaderReplicateResp_tv (r : RaftState) (m : Message) (rp : Remote) :
    (handleLeaderReplicateResp r m rp).term = r.term ∧
    (handleLeaderReplicateResp r m rp).vote = r.vote ∧
    (handleLeaderReplicateResp r m rp).nodeID = r.nodeID ∧
    (handleLeaderReplicateResp r m rp).state = r.state := by
  unfold handleLeaderReplicateResp
  dsimp only
  repeat' split
  all_goals simp

theorem handleLeaderPropose_tv (r : RaftState) (m : Message) :
    (handleLeaderPropose r m).term = r.term ∧
    (handleLeaderPropose r m).vote = r.vote ∧
    (handleLeaderPropose r m).nodeID = r.nodeID ∧
    (handleLeaderPropose r m).state = r.state := by
  unfold handleLeaderPropose
  dsimp only
  refine ⟨?_, ?_, ?_, ?_⟩ <;> (repeat' split) <;> try rfl
  · simp only [broadcastReplicateMessage_term, appendEntries_term]
    exact foldl_field (fun p : RaftState × List LogEntry => p.1.term) _
      (fun s x => by repeat' split; all_goals simp) _ _
  · simp only [broadcastReplicateMessage_vote, appendEntries_vote]
    exact foldl_field (fun p : RaftState × List LogEntry => p.1.vote) _
      (fun s x => by repeat' split; all_goals simp) _ _
  · simp only [broadcastReplicateMessage_nodeID, appendEntries_nodeID]
    exact foldl_field (fun p : RaftState × List LogEntry => p.1.nodeID) _
      (fun s x => by repeat' split; all_goals simp) _ _
  · simp only [broadcastReplicateMessage_state, appendEntries_state]
    exact foldl_field (fun p : RaftState × List LogEntry => p.1.state) _
      (fun s x => by repeat' split; all_goals simp) _ _


/-- The shape of one step for the term and vote discipline: the node id
is stable, the term never drops, the vote only moves to none, to a
self-vote or to the given candidate, and a raised term forces the vote
into one of those three. -/
def stepSpec (r r2 : RaftState) (extra : Nat) : Prop :=
  r2.nodeID = r.nodeID ∧ r.term ≤ r2.term ∧
  (r2.vote = r.vote ∨ r2.vote = 0 ∨ r2.vote = r.nodeID ∨ r2.vote = extra) ∧
  (r.term < r2.term → (r2.vote = 0 ∨ r2.vote = r.nodeID ∨ r2.vote = extra))

theorem stepSpec_refl (r : RaftState) (e : Nat) : stepSpec r r e :=
  ⟨rfl, le_refl _, Or.inl rfl, fun h => absurd h (lt_irrefl _)⟩

theorem stepSpec_of_tv {r r2 : RaftState} (e : Nat) (h1 : r2.term = r.term)
    (h2 : r2.vote = r.vote) (h3 : r2.nodeID = r.nodeID) : stepSpec r r2 e :=
  ⟨h3, le_of_eq h1.symm, Or.inl h2, fun h => absurd h (by omega)⟩

theorem spec_of_tv4 {r r2 : RaftState} {e : Nat} {P : Prop}
    (h : r2.term = r.term ∧ r2.vote = r.vote ∧ r2.nodeID = r.nodeID ∧ P) :
    stepSpec r r2 e :=
  stepSpec_of_tv e h.1 h.2.1 h.2.2.1

theorem spec_of_tv3 {r r2 : RaftState} {e : Nat}
    (h : r2.term = r.term ∧ r2.vote = r.vote ∧ r2.nodeID = r.nodeID) :
    stepSpec r r2 e :=
  stepSpec_of_tv e h.1 h.2.1 h.2.2

theorem stepSpec_trans {r1 r2 r3 : RaftState} {e : Nat}
    (h12 : stepSpec r1 r2 e) (h23 : stepSpec r2 r3 e) : stepSpec r1 r3 e := by
  obtain ⟨n12, t12, v12, u12⟩ := h12
  obtain ⟨n23, t23, v23, u23⟩ := h23
  refine ⟨n23.trans n12, t12.trans t23, ?_, ?_⟩
  · rcases v23 with h | h | h | h
    · rw [h]; exact v12
    · exact Or.inr (Or.inl h)
    · rw [n12] at h; exact Or.inr (Or.inr (Or.inl h))
    · exact Or.inr (Or.inr (Or.inr h))
  · intro hlt
    by_cases hmid : r2.term < r3.term
    · rcases u23 hmid with h | h | h
      · exact Or.inl h
      · rw [n12] at h; exact Or.inr (Or.inl h)
      · exact Or.inr (Or.inr h)
    · have h2eq : r2.term = r3.term := by omega
      have hl : r1.term < r2.term := by omega
      rcases u12 hl with h | h | h
      · rcases v23 with h2 | h2 | h2 | h2
        · exact Or.inl (h2.trans h)
        · exact Or.inl h2
        · rw [n12] at h2; exact Or.inr (Or.inl h2)
        · exact Or.inr (Or.inr h2)
      · rcases v23 with h2 | h2 | h2 | h2
        · exact Or.inr (Or.inl (h2.trans h))
        · exact Or.inl h2
        · rw [n12] at h2; exact Or.inr (Or.inl h2)
        · exact Or.inr (Or.inr h2)
      · rcases v23 with h2 | h2 | h2 | h2
        · exact Or.inr (Or.inr (h2.trans h))
        · exact Or.inl h2
        · rw [n12] at h2; exact Or.inr (Or.inl h2)
        · exact Or.inr (Or.inr h2)

/-- stepSpec with the self-vote slot in the extra position holds for any
extra value. -/
theorem stepSpec_weaken {r r2 : RaftState} (h : stepSpec r r2 r.nodeID) (e : Nat) :
    stepSpec r r2 e := by
  obtain ⟨n, t, v, u⟩ := h
  refine ⟨n, t, ?_, ?_⟩
  · rcases v with h | h | h | h
    · exact Or.inl h
    · exact Or.inr (Or.inl h)
    · exact Or.inr (Or.inr (Or.inl h))
    · exact Or.inr (Or.inr (Or.inl h))
  · intro hlt
    rcases u hlt with h | h | h
    · exact Or.inl h
    · exact Or.inr (Or.inl h)
    · exact Or.inr (Or.inl h)

theorem handleNodeElection_spec (r : RaftState) (m : Message) :
    stepSpec r (handleNodeElection r m) m.mfrom := by
  unfold handleNodeElection
  split
  · split
    · exact stepSpec_refl r m.mfrom
    · obtain ⟨hn, ht, hv, hu⟩ := campaign_spec r
      refine ⟨hn, ht, ?_, ?_⟩
      · rcases hv with h | h
        · exact Or.inl h
        · exact Or.inr (Or.inr (Or.inl h))
      · intro hlt
        exact Or.inr (Or.inl (hu hlt))
  · exact stepSpec_refl r m.mfrom

theorem handleNodeRequestVote_stepSpec (r : RaftState) (m : Message) :
    stepSpec r (handleNodeRequestVote r m) m.mfrom := by
  obtain ⟨ht, hn, _, hv⟩ := handleNodeRequestVote_spec r m
  refine ⟨hn, le_of_eq ht.symm, ?_, fun hlt => absurd hlt (by omega)⟩
  rcases hv with h | h
  · exact Or.inl h
  · exact Or.inr (Or.inr (Or.inr h))

theorem leaderTick_tv (r : RaftState) :
    (leaderTick r).term = r.term ∧ (leaderTick r).vote = r.vote ∧
    (leaderTick r).nodeID = r.nodeID := by
  unfold leaderTick dispatchCheckQuorum dispatchLeaderHeartbeat
  dsimp only
  repeat' split
  all_goals
    simp [handleLeaderCheckQuorum_tv, handleLeaderLeaderHeartbeat_tv, abortLeaderTransfer]

theorem dispatchElection_spec (r : RaftState) :
    stepSpec r (dispatchElection r) r.nodeID := by
  unfold dispatchElection
  have h := handleNodeElection_spec r (electionMsg r.nodeID)
  simp only [electionMsg] at h
  split
  · exact stepSpec_refl r r.nodeID
  all_goals exact h

theorem nonLeaderTick_spec (r : RaftState) :
    stepSpec r (nonLeaderTick r) r.nodeID := by
  unfold nonLeaderTick
  dsimp only
  split
  · exact stepSpec_of_tv _ rfl rfl rfl
  · split
    · exact stepSpec_trans (stepSpec_of_tv _ rfl rfl rfl) (dispatchElection_spec _)
    · exact stepSpec_of_tv _ rfl rfl rfl

theorem tick_spec (r : RaftState) : stepSpec r (tick r) r.nodeID := by
  unfold tick
  dsimp only
  split
  · exact spec_of_tv3 (by
      constructor
      · exact (leaderTick_tv _).1
      constructor
      · exact (leaderTick_tv _).2.1
      · exact (leaderTick_tv _).2.2)
  · exact stepSpec_trans (stepSpec_of_tv _ rfl rfl rfl) (nonLeaderTick_spec _)

theorem handleFollowerTimeoutNow_spec (r : RaftState) (m : Message) :
    stepSpec r (handleFollowerTimeoutNow r m) m.mfrom := by
  unfold handleFollowerTimeoutNow
  dsimp only
  have base : stepSpec r
      { r with electionTick := r.randomizedElectionTimeout,
               isLeaderTransferTarget := true } m.mfrom :=
    stepSpec_of_tv _ rfl rfl rfl
  have ht := tick_spec
    { r with electionTick := r.randomizedElectionTimeout,
             isLeaderTransferTarget := true }
  have ht2 := stepSpec_weaken ht m.mfrom
  split
  · exact stepSpec_trans base (stepSpec_trans ht2 (stepSpec_of_tv _ rfl rfl rfl))
  · exact stepSpec_trans base ht2

theorem lw_spec (r : RaftState) (m : Message)
    (f : RaftState → Message → Remote → RaftState)
    (hf : ∀ rp, stepSpec r (f r m rp) m.mfrom) :
    stepSpec r (lw r m f) m.mfrom := by
  unfold lw
  split
  · apply hf
  · exact stepSpec_refl r m.mfrom

theorem defaultHandle_spec (r : RaftState) (m : Message) :
    stepSpec r (defaultHandle r m) m.mfrom := by
  unfold defaultHandle
  cases hs : r.state <;> cases hm : m.type <;> dsimp only
  case follower.Propose => exact spec_of_tv4 (handleFollowerPropose_tv r m)
  case follower.Replicate => exact spec_of_tv4 (handleFollowerReplicate_tv r m)
  case follower.Heartbeat => exact spec_of_tv4 (handleFollowerHeartbeat_tv r m)
  case follower.ReadIndex => exact spec_of_tv4 (handleFollowerReadIndex_tv r m)
  case follower.LeaderTransfer => exact spec_of_tv4 (handleFollowerLeaderTransfer_tv r m)
  case follower.ReadIndexResp => exact spec_of_tv4 (handleFollowerReadIndexResp_tv r m)
  case follower.InstallSnapshot => exact spec_of_tv4 (handleFollowerInstallSnapshot_tv r m)
  case follower.Election => exact handleNodeElection_spec r m
  case follower.RequestVote => exact handleNodeRequestVote_stepSpec r m
  case follower.TimeoutNow => exact handleFollowerTimeoutNow_spec r m
  case candidate.Heartbeat => exact spec_of_tv3 (handleCandidateHeartbeat_tv r m)
  case candidate.Propose => exact spec_of_tv4 (handleCandidatePropose_tv r m)
  case candidate.Replicate => exact spec_of_tv3 (handleCandidateReplicate_tv r m)
  case candidate.InstallSnapshot => exact spec_of_tv3 (handleCandidateInstallSnapshot_tv r m)
  case candidate.RequestVoteResp => exact spec_of_tv3 (handleCandidateRequestVoteResp_tv r m)
  case candidate.Election => exact handleNodeElection_spec r m
  case candidate.RequestVote => exact handleNodeRequestVote_stepSpec r m
  case leader.LeaderHeartbeat => exact spec_of_tv4 (handleLeaderLeaderHeartbeat_tv r m)
  case leader.CheckQuorum => exact spec_of_tv3 (handleLeaderCheckQuorum_tv r m)
  case leader.Propose => exact spec_of_tv4 (handleLeaderPropose_tv r m)
  case leader.ReadIndex => exact spec_of_tv4 (handleLeaderReadIndex_tv r m)
  case leader.ReplicateResp => exact lw_spec r m _ (fun rp => spec_of_tv4 (handleLeaderReplicateResp_tv r m rp))
  case leader.HeartbeatResp => exact lw_spec r m _ (fun rp => spec_of_tv4 (handleLeaderHeartbeatResp_tv r m rp))
  case leader.SnapshotStatus => exact lw_spec r m _ (fun rp => spec_of_tv4 (handleLeaderSnapshotStatus_tv r m rp))
  case leader.Unreachable => exact lw_spec r m _ (fun rp => spec_of_tv4 (handleLeaderUnreachable_tv r m rp))
  case leader.LeaderTransfer => exact lw_spec r m _ (fun rp => spec_of_tv4 (handleLeaderLeaderTransfer_tv r m rp))
  case leader.Election => exact handleNodeElection_spec r m
  case leader.RequestVote => exact handleNodeRequestVote_stepSpec r m
  case observer.Heartbeat => exact spec_of_tv4 (handleFollowerHeartbeat_tv r m)
  case observer.Replicate => exact spec_of_tv4 (handleFollowerReplicate_tv r m)
  case observer.InstallSnapshot => exact spec_of_tv4 (handleFollowerInstallSnapshot_tv r m)
  case observer.Propose => exact spec_of_tv4 (handleFollowerPropose_tv r m)
  case observer.ReadIndex => exact spec_of_tv4 (handleFollowerReadIndex_tv r m)
  case observer.ReadIndexResp => exact spec_of_tv4 (handleFollowerReadIndexResp_tv r m)
  all_goals exact stepSpec_refl r m.mfrom

theorem becomeFollower_highterm_spec (r : RaftState) (t lid e : Nat)
    (h : r.term < t) : stepSpec r (becomeFollower r t lid) e := by
  refine ⟨becomeFollower_nodeID r t lid, ?_, ?_, ?_⟩
  · rw [becomeFollower_term]
    omega
  · rw [becomeFollower_vote, if_neg (by omega)]
    exact Or.inr (Or.inl rfl)
  · intro _
    rw [becomeFollower_vote, if_neg (by omega)]
    exact Or.inl rfl

theorem becomeObserver_highterm_spec (r : RaftState) (t lid e : Nat)
    (hobs : r.state = .observer) (h : r.term < t) :
    stepSpec r (becomeObserver r t lid) e := by
  refine ⟨becomeObserver_nodeID r t lid, ?_, ?_, ?_⟩
  · rw [becomeObserver_term r t lid hobs]
    omega
  · rw [becomeObserver_vote r t lid hobs, if_neg (by omega)]
    exact Or.inr (Or.inl rfl)
  · intro _
    rw [becomeObserver_vote r t lid hobs, if_neg (by omega)]
    exact Or.inl rfl

theorem onMessageTermNotMatched_spec (r : RaftState) (m : Message) :
    stepSpec r (onMessageTermNotMatched r m).2 m.mfrom := by
  unfold onMessageTermNotMatched
  dsimp only
  split
  · exact stepSpec_refl r m.mfrom
  split
  · exact stepSpec_refl r m.mfrom
  split
  · rename_i h1 h2 hlt
    split
    · rename_i hobs
      exact becomeObserver_highterm_spec r m.term _ m.mfrom
        (by simpa [isObserver] using hobs) hlt
    · exact becomeFollower_highterm_spec r m.term _ m.mfrom hlt
  · split
    · exact stepSpec_of_tv _ (by simp) (by simp) (by simp)
    · exact stepSpec_refl r m.mfrom

theorem Handle_spec (r : RaftState) (m : Message) :
    stepSpec r (Handle r m) m.mfrom := by
  unfold Handle
  dsimp only
  split
  · exact onMessageTermNotMatched_spec r m
  · exact stepSpec_trans (onMessageTermNotMatched_spec r m)
      (defaultHandle_spec (onMessageTermNotMatched r m).2 m)

end Preservation

section Claims

/-- Concrete single-voter follower used for the C6 counterexample and
witness: handling a local Election message raises the term from 0 to 1
while the vote becomes the self-vote 1 rather than none. -/
def c6r : RaftState :=
  { nodeID := 1, state := .follower, remotes := [(1, { next := 1 })],
    electionTimeout := 10, heartbeatTimeout := 1 }

/-- The local Election message handled in the C6 counterexample. -/
def c6m : Message := { type := .Election, mfrom := 1 }

/-- C6 counterexample: the claim says that whenever a step raises the
term the recorded vote is cleared to none; handling an Election on a
single-voter follower raises the term from 0 to 1 and leaves the
self-vote 1, not none. -/
theorem c6_counterexample :
    c6r.term < (Handle c6r c6m).term ∧ (Handle c6r c6m).vote ≠ 0 := by decide

/-- C6 (amended): across every single step (one tick or one Handle of
any message) the term never decreases; whenever a step raises the term,
the vote at the end of the step is none, the node itself (a step that
campaigns casts a self-vote), or the sender of the message (a step that
grants its RequestVote). -/
theorem c6_term_monotonic (r : RaftState) (m : Message) :
    (r.term ≤ (tick r).term ∧
      (r.term < (tick r).term → (tick r).vote = 0 ∨ (tick r).vote = r.nodeID)) ∧
    (r.term ≤ (Handle r m).term ∧
      (r.term < (Handle r m).term →
        (Handle r m).vote = 0 ∨ (Handle r m).vote = r.nodeID ∨
          (Handle r m).vote = m.mfrom)) := by
  obtain ⟨tn, tt, tv, tu⟩ := tick_spec r
  obtain ⟨hn, ht, hv, hu⟩ := Handle_spec r m
  refine ⟨⟨tt, ?_⟩, ht, hu⟩
  intro hlt
  rcases tu hlt with h | h | h
  · exact Or.inl h
  · exact Or.inr h
  · exact Or.inr h

/-- C6 witness: the amended statement applied at a concrete step that
raises the term. -/
theorem c6_term_monotonic_witness :
    c6r.term < (Handle c6r c6m).term ∧
    ((Handle c6r c6m).vote = 0 ∨ (Handle c6r c6m).vote = c6r.nodeID ∨
      (Handle c6r c6m).vote = c6m.mfrom) :=
  ⟨by decide, (c6_term_monotonic c6r c6m).2.2 (by decide)⟩

/-- C5: the shared RequestVote handler grants exactly when the vote is
free for the sender (none, already the sender, or a higher message term)
and the candidate log is up to date; granting records the vote for the
sender and restarts the election tick, rejecting changes neither; in
both cases exactly one RequestVoteResp carrying the current term goes
back to the sender. -/
theorem c5_requestvote_grant_rule (r : RaftState) (m : Message) :
    (handleNodeRequestVote r m).msgs =
      r.msgs ++ [{ type := .RequestVoteResp, mfrom := r.nodeID, mto := m.mfrom,
                   term := r.term,
                   reject := ! (canGrantVote r m &&
                     r.log.upToDate m.logIndex m.logTerm) }] ∧
    (handleNodeRequestVote r m).vote =
      (if canGrantVote r m && r.log.upToDate m.logIndex m.logTerm
        then m.mfrom else r.vote) ∧
    (handleNodeRequestVote r m).electionTick =
      (if canGrantVote r m && r.log.upToDate m.logIndex m.logTerm
        then 0 else r.electionTick) ∧
    (handleNodeRequestVote r m).term = r.term := by
  unfold handleNodeRequestVote send finalizeMessageTerm isRequestMessage
  dsimp only
  split
  · rename_i h
    simp [h]
  · rename_i h
    simp [eq_false_of_ne_true h]


@[simp] theorem send_readyToRead (r : RaftState) (m : Message) :
    (send r m).readyToRead = r.readyToRead := rfl

@[simp] theorem send_log (r : RaftState) (m : Message) : (send r m).log = r.log := rfl

/-- C10: a leader drops a Propose outright when the local node is no
longer a member or a leader transfer is in flight: nothing is appended,
nothing is sent, the state is untouched. -/
theorem c10_leader_propose_dropped (r : RaftState) (m : Message)
    (hlead : r.state = .leader)
    (h : ((assocFind r.remotes r.nodeID).isNone ∧
          (assocFind r.observers r.nodeID).isNone) ∨
         r.leaderTransferTarget ≠ 0) :
    handleLeaderPropose r m = r := by
  unfold handleLeaderPropose
  rcases h with ⟨h1, h2⟩ | h
  · have hsr : selfRemoved r = true := by simp [selfRemoved, hlead, h1]
    simp [hsr]
  · by_cases hsr : selfRemoved r = true
    · simp [hsr]
    · have hlt : leaderTransfering r = true := by simp [leaderTransfering, hlead, h]
      simp [hsr, hlt]

/-- Leader that is no longer a voter, used as the C10 witness input. -/
def c10r : RaftState :=
  { nodeID := 1, state := .leader, term := 1, remotes := [(2, { next := 1 })],
    electionTimeout := 10, heartbeatTimeout := 1 }

/-- Propose message used as the C10 witness input. -/
def c10m : Message := { type := .Propose, entries := [{ cmd := 5 }] }

/-- C10 witness: the removed leader drops the concrete proposal. -/
theorem c10_leader_propose_dropped_witness : handleLeaderPropose c10r c10m = c10r :=
  c10_leader_propose_dropped c10r c10m (by decide) (Or.inl (by decide))

/-- Two-voter follower whose committed Application entry is unapplied,
used for the C4 counterexample. -/
def c4r : RaftState :=
  { nodeID := 1, state := .follower, term := 1,
    remotes := [(1, { next := 2 }), (2, { next := 2 })],
    log := { entries := [{ index := 1, term := 1 }], committed := 1 },
    applied := 0, electionTimeout := 10, heartbeatTimeout := 1 }

/-- Election message used in the C4 counterexample and witness. -/
def c4m : Message := { type := .Election, mfrom := 1 }

/-- C4 counterexample: the claim makes the refusal equivalent to an
unapplied committed config-change entry; here the only entry is an
Application entry, committed and unapplied, and the node still refuses
(the step leaves the state untouched instead of campaigning). -/
theorem c4_counterexample :
    (∀ e ∈ c4r.log.entries, e.type = .ApplicationEntry) ∧
    c4r.applied < c4r.log.committed ∧ c4r.state ≠ .leader ∧
    Handle c4r c4m = c4r := by decide

/-- C4 (amended): a non-leader (the Election handler is wired for
followers and candidates) refuses to campaign exactly when any committed
entry is unapplied, whatever its type; otherwise the step is the
campaign, which raises the term by one and leaves the node candidate or
leader. -/
theorem c4_election_refusal (r : RaftState) (m : Message)
    (h : r.state = .follower ∨ r.state = .candidate) :
    (handleNodeElection r m = r ↔ r.applied < r.log.committed) ∧
    (¬ r.applied < r.log.committed →
      handleNodeElection r m = campaign r ∧ (campaign r).term = r.term + 1 ∧
      ((campaign r).state = .candidate ∨ (campaign r).state = .leader)) := by
  have hne : r.state ≠ .leader := by rcases h with h | h <;> simp [h]
  obtain ⟨ht, hv, hn, hs⟩ := campaign_char r h
  have hstep : handleNodeElection r m =
      (if r.applied < r.log.committed then r else campaign r) := by
    unfold handleNodeElection hasConfigChangeToApply
    rw [if_pos hne]
    by_cases hc : r.applied < r.log.committed
    · rw [if_pos (by simpa using hc), if_pos hc]
    · rw [if_neg (by simpa using hc), if_neg hc]
  refine ⟨?_, ?_⟩
  · rw [hstep]
    by_cases hc : r.applied < r.log.committed
    · simp [hc]
    · rw [if_neg hc]
      constructor
      · intro heq
        exfalso
        have : (campaign r).term = r.term := by rw [heq]
        omega
      · intro hcc
        exact absurd hcc hc
  · intro hc
    rw [hstep, if_neg hc]
    exact ⟨rfl, ht, hs⟩

/-- Two-voter follower with nothing unapplied, used as the C4 witness
input. -/
def c4w : RaftState :=
  { nodeID := 1, state := .follower, term := 1,
    remotes := [(1, { next := 1 }), (2, { next := 1 })],
    electionTimeout := 10, heartbeatTimeout := 1 }

/-- C4 witness: with nothing unapplied the concrete follower campaigns
and the term advances. -/
theorem c4_election_refusal_witness :
    handleNodeElection c4w c4m = campaign c4w ∧ (campaign c4w).term = c4w.term + 1 := by
  have h := (c4_election_refusal c4w c4m (Or.inl (by decide))).2 (by decide)
  exact ⟨h.1, h.2.1⟩

/-- C3: a RequestVote from a higher term is dropped with no trace (the
whole Handle step is the identity) exactly when check-quorum is on, a
leader is known, the election tick is below the plain election timeout
and the message carries no transfer hint for its sender. -/
theorem c3_leader_stickiness (r : RaftState) (m : Message)
    (htype : m.type = .RequestVote) (hterm : r.term < m.term) :
    (Handle r m = r ↔
      (r.checkQuorum = true ∧ r.leaderID ≠ 0 ∧
        r.electionTick < r.electionTimeout ∧ m.hint ≠ m.mfrom)) := by
  have hm0 : ¬ (m.term = 0 ∨ m.term = r.term) := by omega
  have hdrop_iff : dropRequestVoteFromHighTermNode r m = true ↔
      (r.checkQuorum = true ∧ r.leaderID ≠ 0 ∧
        r.electionTick < r.electionTimeout ∧ m.hint ≠ m.mfrom) := by
    unfold dropRequestVoteFromHighTermNode
    by_cases hcq : r.checkQuorum
    · rw [if_neg (by simp [htype, hcq]; omega)]
      by_cases hh : m.hint = m.mfrom
      · rw [if_pos hh]
        simp [hh]
      · rw [if_neg hh]
        by_cases hl : r.leaderID ≠ 0 ∧ r.electionTick < r.electionTimeout
        · rw [if_pos hl]
          simp [hcq, hh, hl.1, hl.2]
        · rw [if_neg hl]
          simp only [Bool.false_eq_true, false_iff]
          intro hx
          exact hl ⟨hx.2.1, hx.2.2.1⟩
    · rw [if_pos (by simp [hcq])]
      simp [hcq]
  constructor
  · intro heq
    by_contra hnc
    have hdf : ¬ dropRequestVoteFromHighTermNode r m = true := fun hx =>
      hnc (hdrop_iff.mp hx)
    have hterm2 : (Handle r m).term = m.term := by
      unfold Handle onMessageTermNotMatched
      dsimp only
      rw [if_neg hm0, if_neg hdf, if_pos hterm]
      have hdd : ∀ s : RaftState, (defaultHandle s m).term = s.term := by
        intro s
        cases hss : s.state <;>
          simp [defaultHandle, htype, hss, (handleNodeRequestVote_spec s m).1]
      generalize (if isLeaderMessage m.type = true then m.mfrom else 0) = lid
      split
      · rename_i hobs
        have hx : r.state = .observer := by simpa [isObserver] using hobs
        simp [hdd, becomeObserver_term r m.term lid hx]
      · simp [hdd, becomeFollower_term r m.term lid]
    rw [heq] at hterm2
    omega
  · intro hc
    unfold Handle onMessageTermNotMatched
    dsimp only
    rw [if_neg hm0, if_pos (hdrop_iff.mpr hc)]
    rfl

/-- Follower with a known leader inside the sticky window, used as the
C3 witness input. -/
def c3r : RaftState :=
  { nodeID := 2, state := .follower, term := 1, leaderID := 1,
    checkQuorum := true, electionTick := 3, electionTimeout := 10,
    heartbeatTimeout := 1,
    remotes := [(1, { next := 1 }), (2, { next := 1 }), (3, { next := 1 })] }

/-- Higher-term RequestVote without a transfer hint, used as the C3
witness input. -/
def c3m : Message :=
  { type := .RequestVote, mfrom := 3, term := 2, logIndex := 0, logTerm := 0 }

/-- C3 witness: the sticky follower drops the concrete higher-term
RequestVote without any state change. -/
theorem c3_leader_stickiness_witness : Handle c3r c3m = c3r :=
  (c3_leader_stickiness c3r c3m (by decide) (by decide)).mpr (by decide)

/-- Single-voter leader at term 2 whose committed entry has term 1, used
for the C1 counterexample: no entry of the current term is committed. -/
def c1r : RaftState :=
  { nodeID := 1, term := 2, state := .leader,
    remotes := [(1, { next := 2, rmatch := 1 })],
    log := { entries := [{ index := 1, term := 1 }], committed := 1 },
    electionTimeout := 10, heartbeatTimeout := 1 }

/-- ReadIndex request used in the C1 counterexample. -/
def c1m : Message := { type := .ReadIndex, mfrom := 1, hint := 7, hintHigh := 3 }

/-- C1 counterexample: the claim extends the current-term-commit guard
to single-node quorums; the concrete single-voter leader has no
committed entry of its term and still emits a ready-to-read record
instead of dropping the request. -/
theorem c1_counterexample :
    c1r.state = .leader ∧ hasCommittedEntryAtCurrentTerm c1r = false ∧
    isSingleNodeQuorum c1r = true ∧
    (Handle c1r c1m).readyToRead ≠ c1r.readyToRead := by decide

/-- C1 (amended): a leader handling a ReadIndex drops it without any
trace when the quorum needs more than one node and no entry of the
current term is committed; a single-node quorum skips that guard and
always emits a ready-to-read at its committed index. -/
theorem c1_readindex_guard (r : RaftState) (m : Message)
    (htype : m.type = .ReadIndex) (hterm : m.term = 0) (hlead : r.state = .leader) :
    (isSingleNodeQuorum r = false → hasCommittedEntryAtCurrentTerm r = false →
      Handle r m = r) ∧
    (isSingleNodeQuorum r = true →
      (Handle r m).readyToRead =
        r.readyToRead ++ [{ index := r.log.committed,
                            systemCtx := { low := m.hint, high := m.hintHigh } }]) := by
  have hH : Handle r m = handleLeaderReadIndex r m := by
    unfold Handle onMessageTermNotMatched
    dsimp only
    rw [if_pos (Or.inl hterm)]
    simp [defaultHandle, hlead, htype]
  rw [hH]
  constructor
  · intro hsq hcc
    unfold handleLeaderReadIndex
    simp [hsq, hcc]
  · intro hsq
    unfold handleLeaderReadIndex
    simp only [hsq, Bool.not_true, Bool.false_eq_true, if_false]
    split <;> simp [addReadyToRead]

/-- Two-voter leader at term 2 with no current-term commit, used as the
C1 witness input. -/
def c1w : RaftState :=
  { nodeID := 1, term := 2, state := .leader,
    remotes := [(1, { next := 2, rmatch := 1 }), (2, { next := 2 })],
    log := { entries := [{ index := 1, term := 1 }], committed := 1 },
    electionTimeout := 10, heartbeatTimeout := 1 }

/-- C1 witness: the two-voter leader drops the concrete ReadIndex while
no current-term entry is committed. -/
theorem c1_readindex_guard_witness : Handle c1w c1m = c1w :=
  (c1_readindex_guard c1w c1m (by decide) (by decide) (by decide)).1
    (by decide) (by decide)


/-- An index whose term the log can report lies within the log. -/
theorem term_ok_le_lastIndex (l : EntryLog) (i t2 : Nat)
    (h : l.term i = .ok t2) : i ≤ l.lastIndex := by
  unfold EntryLog.term at h
  split at h
  · rename_i h1
    unfold EntryLog.lastIndex
    omega
  · split at h
    · exact absurd h (by simp)
    · split at h
      · rename_i e hg
        have hlt := (List.get?_eq_some.mp hg).1
        unfold EntryLog.lastIndex
        omega
      · exact absurd h (by simp)

/-- A matched index lies within the log. -/
theorem matchTerm_le_lastIndex (l : EntryLog) (i t : Nat)
    (h : l.matchTerm i t = true) : i ≤ l.lastIndex := by
  unfold EntryLog.matchTerm at h
  split at h
  · rename_i t2 hok
    exact term_ok_le_lastIndex l i t2 hok
  · exact absurd h (by simp)

/-- C8: a follower handling InstallSnapshot: a stale snapshot (at or
below committed) is ignored and answered with a ReplicateResp carrying
the unchanged committed index; a snapshot matching an existing entry
only raises committed to the snapshot index, answered with that index;
any other snapshot replaces the log, whose last index becomes the
snapshot index carried by the ReplicateResp reply. -/
theorem c8_install_snapshot (r : RaftState) (m : Message)
    (hst : r.state = .follower)
    (hobs : ¬ r.nodeID ∈ m.snapshot.membershipObservers) :
    (m.snapshot.index ≤ r.log.committed →
      (handleInstallSnapshotMessage r m).log = r.log ∧
      (handleInstallSnapshotMessage r m).msgs = r.msgs ++
        [{ type := .ReplicateResp, mfrom := r.nodeID, mto := m.mfrom,
           term := r.term, logIndex := r.log.committed }]) ∧
    (r.log.committed < m.snapshot.index →
      r.log.matchTerm m.snapshot.index m.snapshot.term = true →
      (handleInstallSnapshotMessage r m).log.entries = r.log.entries ∧
      (handleInstallSnapshotMessage r m).log.committed = m.snapshot.index ∧
      (handleInstallSnapshotMessage r m).msgs = r.msgs ++
        [{ type := .ReplicateResp, mfrom := r.nodeID, mto := m.mfrom,
           term := r.term, logIndex := m.snapshot.index }]) ∧
    (r.log.committed < m.snapshot.index →
      r.log.matchTerm m.snapshot.index m.snapshot.term = false →
      (handleInstallSnapshotMessage r m).log = r.log.restore m.snapshot ∧
      (handleInstallSnapshotMessage r m).log.lastIndex = m.snapshot.index ∧
      (handleInstallSnapshotMessage r m).msgs = r.msgs ++
        [{ type := .ReplicateResp, mfrom := r.nodeID, mto := m.mfrom,
           term := r.term, logIndex := m.snapshot.index }]) := by
  have hO : ¬ (¬ isObserver r = true ∧ r.nodeID ∈ m.snapshot.membershipObservers) :=
    fun hx => hobs hx.2
  refine ⟨?_, ?_, ?_⟩
  · intro hle
    unfold handleInstallSnapshotMessage restore
    rw [if_pos hle]
    dsimp only
    exact ⟨rfl, rfl⟩
  · intro hgt hmt
    have hli := matchTerm_le_lastIndex r.log m.snapshot.index m.snapshot.term hmt
    have hmax : max r.log.committed (min m.snapshot.index r.log.lastIndex) =
        m.snapshot.index := by omega
    have hcc : (r.log.commitTo m.snapshot.index).committed = m.snapshot.index := by
      simp [EntryLog.commitTo, hmax]
    unfold handleInstallSnapshotMessage restore
    rw [if_neg (show ¬ m.snapshot.index ≤ r.log.committed by omega), if_neg hO,
      if_pos hmt]
    dsimp only
    refine ⟨rfl, hcc, ?_⟩
    simp [send, finalizeMessageTerm, isRequestMessage, hcc]
  · intro hgt hmt
    unfold handleInstallSnapshotMessage restore
    rw [if_neg (show ¬ m.snapshot.index ≤ r.log.committed by omega), if_neg hO,
      if_neg (show ¬ r.log.matchTerm m.snapshot.index m.snapshot.term = true by
        simp [hmt])]
    dsimp only
    refine ⟨rfl, ?_, ?_⟩
    · simp [EntryLog.restore, EntryLog.lastIndex]
    · simp [send, finalizeMessageTerm, isRequestMessage, EntryLog.restore,
        EntryLog.lastIndex]

/-- Follower used for the C8 witness. -/
def c8r : RaftState :=
  { nodeID := 2, state := .follower, term := 3,
    remotes := [(1, { next := 1 }), (2, { next := 1 })],
    log := { entries := [{ index := 1, term := 1 }], committed := 1 },
    electionTimeout := 10, heartbeatTimeout := 1 }

/-- InstallSnapshot message used for the C8 witness: a fresh snapshot at
index 5 and term 2 with members 1 and 2. -/
def c8m : Message :=
  { type := .InstallSnapshot, mfrom := 1, term := 3,
    snapshot := { index := 5, term := 2, membershipAddresses := [1, 2] } }

/-- C8 witness: the concrete follower installs the fresh snapshot and
reports last index 5. -/
theorem c8_install_snapshot_witness :
    (handleInstallSnapshotMessage c8r c8m).log = c8r.log.restore c8m.snapshot ∧
    (handleInstallSnapshotMessage c8r c8m).log.lastIndex = c8m.snapshot.index := by
  have h := (c8_install_snapshot c8r c8m (by decide) (by decide)).2.2
    (by decide) (by decide)
  exact ⟨h.1, h.2.1⟩

/-- Iterated clock ticks (tick applied n times). -/
def runTicks : RaftState → Nat → RaftState
  | r, 0 => r
  | r, n + 1 => tick (runTicks r n)

/-- The single-node configuration of the C9 scenario. -/
def singleNodeCfg : Config := { nodeID := 1, electionRTT := 10, heartbeatRTT := 1 }

/-- Fresh single-voter node of the C9 scenario, with d the first value
drawn from the random source. -/
def c9init (d : Nat) : RaftState := newRaft singleNodeCfg {} {} [1] [] [d]

/-- C9 counterexample: the claim promises leadership after exactly 10
ticks for every random draw; with draw 1 the randomized election timeout
is 11, so after 10 ticks the node is still a follower at term 0. -/
theorem c9_counterexample :
    (runTicks (c9init 1) 10).state ≠ .leader ∧
    (runTicks (c9init 1) 10).term = 0 := by decide

/-- The fully evaluated fresh single-voter node: every field of c9init
is concrete except the randomized election timeout 10 + d mod 10. -/
def c9base (d : Nat) : RaftState :=
  { nodeID := 1, state := .follower,
    remotes := [(1, { next := 1 })],
    electionTimeout := 10, heartbeatTimeout := 1,
    randomizedElectionTimeout := 10 + d % 10,
    matched := [0] }

theorem c9init_eq (d : Nat) : c9init d = c9base d := by
  unfold c9init newRaft c9base
  simp [singleNodeCfg, becomeFollower, reset, setRandomizedElectionTimeout,
    setLeaderID, clearPendingConfigChange, abortLeaderTransfer, resetRemotes,
    resetObservers, resetMatchValueArray, loadState, EntryLog.lastIndex]

/-- With a draw not divisible by 10 the randomized timeout is at least
11, so each of the first 10 ticks only ages the election clock: the
state after n ticks differs from the fresh node only in the two tick
counters. -/
theorem c9_neg_run (d : Nat) (hd : ¬ d % 10 = 0) :
    ∀ n : Nat, n ≤ 10 →
    runTicks (c9init d) n = { c9base d with electionTick := n, tickCount := n }
  | 0, _ => by
    rw [c9init_eq d]
    rfl
  | n + 1, hn => by
    rw [show runTicks (c9init d) (n + 1) = tick (runTicks (c9init d) n) from rfl,
      c9_neg_run d hd n (by omega)]
    have hT : ¬ ((10 : Nat) + d % 10 ≤ n + 1) := by omega
    simp [tick, nonLeaderTick, isObserver, selfRemoved, timeForElection,
      dispatchElection, assocFind, c9base, hT]

/-- C9 (amended): for a fresh single-voter node (nodeId 1, electionRTT
10, heartbeatRTT 1, voters 1 only), ticking exactly 10 times makes the
node Leader at term 1 with the single no-op Application entry (index 1,
term 1) committed precisely when the random draw is divisible by 10
(the randomized election timeout then takes its minimum value 10); for
every other draw the timeout lands strictly between 10 and 20 and after
10 ticks the node is still a follower at term 0. -/
theorem c9_single_node_leader_iff (d : Nat) :
    (d % 10 = 0 →
      (runTicks (c9init d) 10).state = .leader ∧
      (runTicks (c9init d) 10).term = 1 ∧
      (runTicks (c9init d) 10).log.entries =
        [{ index := 1, term := 1, type := .ApplicationEntry, cmd := 0 }] ∧
      (runTicks (c9init d) 10).log.committed = 1) ∧
    (¬ d % 10 = 0 →
      (runTicks (c9init d) 10).state = .follower ∧
      (runTicks (c9init d) 10).term = 0) := by
  constructor
  · intro h
    have hinit : c9init d = c9init 0 := by
      rw [c9init_eq d, c9init_eq 0]
      simp [c9base, h]
    rw [hinit]
    decide
  · intro h
    rw [c9_neg_run d h 10 (by omega)]
    exact ⟨rfl, rfl⟩

/-- C9 witness: both directions of the amended scenario at concrete
draws 0 and 11. -/
theorem c9_single_node_leader_iff_witness :
    (runTicks (c9init 0) 10).state = .leader ∧
    (runTicks (c9init 11) 10).state = .follower :=
  ⟨((c9_single_node_leader_iff 0).1 (by decide)).1,
   ((c9_single_node_leader_iff 11).2 (by decide)).1⟩

/-- The unrolled three-element bubble sort of sortMatchValues agrees
with insertion sort, so sortMatchValues always sorts. -/
theorem sortMatchValues_eq (l : List Nat) :
    sortMatchValues l = l.insertionSort (fun x y => x ≤ y) := by
  rcases l with _ | ⟨a, _ | ⟨b, _ | ⟨c, _ | ⟨d, tl⟩⟩⟩⟩
  · rfl
  · rfl
  · rfl
  · unfold sortMatchValues
    dsimp only
    simp only [List.insertionSort, List.orderedInsert]
    split_ifs <;>
      (repeat (simp only [List.orderedInsert]; split_ifs)) <;>
      (try simp only [List.orderedInsert]) <;>
      first | rfl | omega
  · rfl

/-- C2: tryCommit gathers the match value of every voter, sorts them and
selects the element at position n − quorum with quorum = n / 2 + 1; the
log commit index advances to that value exactly when it grows and the
entry there carries the current term, and is unchanged otherwise.  The
matched buffer afterwards holds a sorted permutation of the voter match
values. -/
theorem c2_trycommit_quorum_rule (r : RaftState) (hn : r.remotes ≠ []) :
    ((tryCommit r).2.log.committed =
      if r.log.committed <
            (((r.remotes.map (fun p => p.2.rmatch)).insertionSort
              (fun x y => x ≤ y)).getD (r.remotes.length - (r.remotes.length / 2 + 1)) 0) ∧
          r.log.matchTerm
            (((r.remotes.map (fun p => p.2.rmatch)).insertionSort
              (fun x y => x ≤ y)).getD (r.remotes.length - (r.remotes.length / 2 + 1)) 0)
            r.term = true
        then
          (((r.remotes.map (fun p => p.2.rmatch)).insertionSort
            (fun x y => x ≤ y)).getD (r.remotes.length - (r.remotes.length / 2 + 1)) 0)
        else r.log.committed) ∧
    ((tryCommit r).1 = true ↔
      (r.log.committed <
          (((r.remotes.map (fun p => p.2.rmatch)).insertionSort
            (fun x y => x ≤ y)).getD (r.remotes.length - (r.remotes.length / 2 + 1)) 0) ∧
        r.log.matchTerm
          (((r.remotes.map (fun p => p.2.rmatch)).insertionSort
            (fun x y => x ≤ y)).getD (r.remotes.length - (r.remotes.length / 2 + 1)) 0)
          r.term = true)) ∧
    (tryCommit r).2.matched.Sorted (fun x y => x ≤ y) ∧
    (tryCommit r).2.matched.Perm (r.remotes.map (fun p => p.2.rmatch)) := by
  unfold tryCommit quorum EntryLog.tryCommit
  dsimp only
  rw [sortMatchValues_eq]
  refine ⟨?_, ?_, ?_, ?_⟩
  · split <;> rfl
  · split
    · rename_i h
      exact ⟨fun _ => h, fun _ => rfl⟩
    · rename_i h
      exact ⟨fun hx => absurd hx Bool.false_ne_true, fun hx => absurd hx h⟩
  · exact List.sorted_insertionSort _ _
  · exact List.perm_insertionSort _ _

/-- Three-voter leader used as the C2 witness input: match values 3, 1
and 2, so the quorum match index is 2. -/
def c2w : RaftState :=
  { nodeID := 1, state := .leader, term := 1,
    remotes := [(1, { next := 4, rmatch := 3 }), (2, { next := 2, rmatch := 1 }),
                (3, { next := 3, rmatch := 2 })],
    log := { entries := [{ index := 1, term := 1 }, { index := 2, term := 1 },
                         { index := 3, term := 1 }], committed := 0 },
    electionTimeout := 10, heartbeatTimeout := 1 }

/-- C2 witness: on the concrete three-voter state the quorum match index
is 2 and committed advances to it. -/
theorem c2_trycommit_quorum_rule_witness :
    (tryCommit c2w).2.log.committed = 2 ∧ (tryCommit c2w).1 = true := by
  have h := c2_trycommit_quorum_rule c2w (by decide)
  refine ⟨?_, h.2.1.mpr (by decide)⟩
  rw [h.1]
  decide


theorem assocFind_cons_self {α : Type} (k : Nat) (v : α) (l : List (Nat × α)) :
    assocFind ((k, v) :: l) k = some v := by
  simp [assocFind, List.find?]

theorem assocFind_cons_ne {α : Type} (k id : Nat) (v : α) (l : List (Nat × α))
    (h : id ≠ k) : assocFind ((k, v) :: l) id = assocFind l id := by
  simp only [assocFind, List.find?]
  rw [show ((k, v).1 == id) = false by simpa using fun he => h he.symm]

/-- sendHeartbeatMessage to a voter is exactly one staged Heartbeat
carrying commit capped at the match value found for the peer. -/
theorem sendHeartbeatMessage_voter_eq (r : RaftState) (mto : Nat) (hint : SystemCtx) :
    sendHeartbeatMessage r mto hint false =
      { r with msgs := r.msgs ++
          [{ type := .Heartbeat, mfrom := r.nodeID, mto := mto, term := r.term,
             commit := min ((assocFind r.remotes mto).getD default).rmatch
               r.log.committed,
             hint := hint.low, hintHigh := hint.high }] } := rfl

/-- sendHeartbeatMessage to an observer, with the match value read from
the observer set. -/
theorem sendHeartbeatMessage_observer_eq (r : RaftState) (mto : Nat) (hint : SystemCtx) :
    sendHeartbeatMessage r mto hint true =
      { r with msgs := r.msgs ++
          [{ type := .Heartbeat, mfrom := r.nodeID, mto := mto, term := r.term,
             commit := min ((assocFind r.observers mto).getD default).rmatch
               r.log.committed,
             hint := hint.low, hintHigh := hint.high }] } := rfl

/-- The voter half of the heartbeat broadcast: folding the send over a
key list stages one Heartbeat per key other than the local node, with
the match value looked up per key. -/
theorem hb_fold_voters (ctx : SystemCtx) (keys : List Nat) (s : RaftState) :
    keys.foldl
      (fun acc id => if id ≠ acc.nodeID then sendHeartbeatMessage acc id ctx false
        else acc) s =
    { s with msgs := s.msgs ++ (keys.filter (fun id => id ≠ s.nodeID)).map (fun id =>
        { type := .Heartbeat, mfrom := s.nodeID, mto := id, term := s.term,
          commit := min ((assocFind s.remotes id).getD default).rmatch
            s.log.committed,
          hint := ctx.low, hintHigh := ctx.high }) } := by
  induction keys generalizing s with
  | nil => simp
  | cons k ks ih =>
    rw [List.foldl_cons]
    by_cases hk : k ≠ s.nodeID
    · rw [if_pos hk, ih, sendHeartbeatMessage_voter_eq]
      simp [List.filter_cons, hk]
    · rw [if_neg hk, ih]
      simp [List.filter_cons, hk]

/-- The observer half of the heartbeat broadcast with the zero context. -/
theorem hb_fold_obs (keys : List Nat) (s : RaftState) :
    keys.foldl (fun acc id => sendHeartbeatMessage acc id {} true) s =
    { s with msgs := s.msgs ++ keys.map (fun id =>
        { type := .Heartbeat, mfrom := s.nodeID, mto := id, term := s.term,
          commit := min ((assocFind s.observers id).getD default).rmatch
            s.log.committed,
          hint := 0, hintHigh := 0 }) } := by
  induction keys generalizing s with
  | nil => simp
  | cons k ks ih =>
    rw [List.foldl_cons, ih, sendHeartbeatMessage_observer_eq]
    simp

/-- Under distinct keys, mapping the per-key lookup over the filtered key
list is mapping over the filtered entries themselves. -/
theorem hb_keys_voters (nid term committed : Nat) (ctx : SystemCtx) :
    ∀ (l : List (Nat × Remote)), (l.map Prod.fst).Nodup → ∀ (n : Nat),
    ((l.map Prod.fst).filter (fun id => id ≠ n)).map (fun id =>
      ({ type := .Heartbeat, mfrom := nid, mto := id, term := term,
         commit := min ((assocFind l id).getD default).rmatch committed,
         hint := ctx.low, hintHigh := ctx.high } : Message)) =
    (l.filter (fun p => p.1 ≠ n)).map (fun p =>
      { type := .Heartbeat, mfrom := nid, mto := p.1, term := term,
        commit := min p.2.rmatch committed,
        hint := ctx.low, hintHigh := ctx.high })
  | [], _, n => by simp
  | (k, v) :: qs, h, n => by
    simp only [List.map_cons] at h
    have hk : k ∉ qs.map Prod.fst := (List.nodup_cons.mp h).1
    have hq : (qs.map Prod.fst).Nodup := (List.nodup_cons.mp h).2
    have hlift :
        ((qs.map Prod.fst).filter (fun id => id ≠ n)).map (fun id =>
          ({ type := .Heartbeat, mfrom := nid, mto := id, term := term,
             commit := min ((assocFind ((k, v) :: qs) id).getD default).rmatch
               committed,
             hint := ctx.low, hintHigh := ctx.high } : Message)) =
        ((qs.map Prod.fst).filter (fun id => id ≠ n)).map (fun id =>
          ({ type := .Heartbeat, mfrom := nid, mto := id, term := term,
             commit := min ((assocFind qs id).getD default).rmatch committed,
             hint := ctx.low, hintHigh := ctx.high } : Message)) := by
      apply List.map_congr_left
      intro id hid
      have hidq : id ∈ qs.map Prod.fst := (List.mem_filter.mp hid).1
      have hne : id ≠ k := fun he => hk (he ▸ hidq)
      rw [assocFind_cons_ne k id v qs hne]
    by_cases hkn : k ≠ n
    · simp only [List.map_cons, List.filter_cons, decide_eq_true_eq, if_pos hkn,
        List.map_cons]
      rw [assocFind_cons_self]
      refine congrArg (fun x => _ :: x) ?_
      rw [hlift, hb_keys_voters nid term committed ctx qs hq n]
    · simp only [List.map_cons, List.filter_cons, decide_eq_true_eq, if_neg hkn]
      rw [hlift, hb_keys_voters nid term committed ctx qs hq n]

/-- The unfiltered observer version of the key-to-entry conversion. -/
theorem hb_keys_obs (nid term committed : Nat) :
    ∀ (l : List (Nat × Remote)), (l.map Prod.fst).Nodup →
    (l.map Prod.fst).map (fun id =>
      ({ type := .Heartbeat, mfrom := nid, mto := id, term := term,
         commit := min ((assocFind l id).getD default).rmatch committed,
         hint := 0, hintHigh := 0 } : Message)) =
    l.map (fun p =>
      { type := .Heartbeat, mfrom := nid, mto := p.1, term := term,
        commit := min p.2.rmatch committed, hint := 0, hintHigh := 0 })
  | [], _ => by simp
  | (k, v) :: qs, h => by
    simp only [List.map_cons] at h
    have hk : k ∉ qs.map Prod.fst := (List.nodup_cons.mp h).1
    have hq : (qs.map Prod.fst).Nodup := (List.nodup_cons.mp h).2
    have hlift :
        (qs.map Prod.fst).map (fun id =>
          ({ type := .Heartbeat, mfrom := nid, mto := id, term := term,
             commit := min ((assocFind ((k, v) :: qs) id).getD default).rmatch
               committed,
             hint := 0, hintHigh := 0 } : Message)) =
        (qs.map Prod.fst).map (fun id =>
          ({ type := .Heartbeat, mfrom := nid, mto := id, term := term,
             commit := min ((assocFind qs id).getD default).rmatch committed,
             hint := 0, hintHigh := 0 } : Message)) := by
      apply List.map_congr_left
      intro id hid
      have hne : id ≠ k := fun he => hk (he ▸ hid)
      rw [assocFind_cons_ne k id v qs hne]
    simp only [List.map_cons]
    rw [assocFind_cons_self]
    refine congrArg (fun x => _ :: x) ?_
    rw [hlift, hb_keys_obs nid term committed qs hq]

/-- C7: a heartbeat broadcast with context ctx stages, in order, one
Heartbeat per voter other than the local node and, exactly when ctx is
zero, one per observer; every Heartbeat carries commit equal to
min(peer match, committed). -/
theorem c7_heartbeat_broadcast (r : RaftState) (ctx : SystemCtx)
    (hv : (r.remotes.map Prod.fst).Nodup)
    (ho : (r.observers.map Prod.fst).Nodup) :
    (broadcastHeartbeatMessageWithHint r ctx).msgs =
      r.msgs ++
      ((r.remotes.filter (fun p => p.1 ≠ r.nodeID)).map (fun p =>
        { type := .Heartbeat, mfrom := r.nodeID, mto := p.1, term := r.term,
          commit := min p.2.rmatch r.log.committed,
          hint := ctx.low, hintHigh := ctx.high })) ++
      (if ctx = {} then
        r.observers.map (fun p =>
          { type := .Heartbeat, mfrom := r.nodeID, mto := p.1, term := r.term,
            commit := min p.2.rmatch r.log.committed, hint := 0, hintHigh := 0 })
      else []) := by
  unfold broadcastHeartbeatMessageWithHint
  dsimp only
  rw [hb_fold_voters]
  split
  · rename_i hz
    rw [hb_fold_obs]
    dsimp only
    rw [hb_keys_voters r.nodeID r.term r.log.committed ctx r.remotes hv r.nodeID,
      hb_keys_obs r.nodeID r.term r.log.committed r.observers ho]
    try simp [hz]
  · rename_i hz
    dsimp only
    rw [hb_keys_voters r.nodeID r.term r.log.committed ctx r.remotes hv r.nodeID]
    try simp [hz]

/-- Three-voter, one-observer leader used as the C7 witness input. -/
def c7w : RaftState :=
  { nodeID := 1, state := .leader, term := 2,
    remotes := [(1, { next := 4, rmatch := 3 }), (2, { next := 2, rmatch := 1 }),
                (3, { next := 3, rmatch := 2 })],
    observers := [(4, { next := 2, rmatch := 1 })],
    log := { entries := [{ index := 1, term := 1 }, { index := 2, term := 2 },
                         { index := 3, term := 2 }], committed := 2 },
    electionTimeout := 10, heartbeatTimeout := 1 }

/-- C7 witness: the concrete broadcast with a zero context reaches
voters 2 and 3 and observer 4 with the capped commit values. -/
theorem c7_heartbeat_broadcast_witness :
    (broadcastHeartbeatMessageWithHint c7w {}).msgs =
      [{ type := .Heartbeat, mfrom := 1, mto := 2, term := 2, commit := 1 },
       { type := .Heartbeat, mfrom := 1, mto := 3, term := 2, commit := 2 },
       { type := .Heartbeat, mfrom := 1, mto := 4, term := 2, commit := 1 }] := by
  rw [c7_heartbeat_broadcast c7w {} (by decide) (by decide)]
  decide

end Claims

end DragonboatRaft
